import Mathlib

/-!
Verification of the travel-booking saga sample.

The definitions below are a shallow embedding of the Python sources:
`src/travel/llm_agents.py`, `src/travel/activities.py`, `src/travel/sagas.py`
and `src/function_app.py`.

Modelling conventions:
* JSON-ish Python values (the dicts flowing between orchestrators and
  activities) are the inductive type `JVal`.  JSON numbers are modelled as
  `Int` (the repository only ever produces integers).
* An activity that can raise is a function into `Except String JVal`; the
  `.error` case carries the exception text.
* Nondeterminism (the `random` module, `datetime.now`, and the text an LLM
  returns) is made explicit through oracle records (`AgentEnv`, `PayEnv`):
  a run of an orchestration is a deterministic function of its input and of
  these oracles, exactly the deterministic-replay discipline of the engine.
  The outcome of `json.loads` on LLM text is the oracle field `parsed`
  (`none` models a JSONDecodeError).  A network fault inside `_call_llm`
  itself is not modelled; it would only add further booking-failure runs.
* An orchestrator run (`SagaRun`) records the returned value (`.error` for
  an orchestrator fault escaping the generator, such as a KeyError), the
  list of work items the orchestrator itself scheduled (`sched`), and the
  flattened list of all activity executions including those inside
  sub-orchestrations (`acts`).
* Python `d.get(k)` on a dict is `JVal.get?`; on the reachable call sites
  the receiver is always a dict, so `get?` returning `none` on non-objects
  is never exercised in a way that differs from Python.
-/

/-- a JSON-like value, modelling the Python dicts, lists and scalars that
flow through the sagas.  Numbers are modelled as integers. -/
inductive JVal where
  | null : JVal
  | bool : Bool → JVal
  | str : String → JVal
  | num : Int → JVal
  | arr : List JVal → JVal
  | obj : List (String × JVal) → JVal
deriving Repr

/-- first-match lookup in an association list, modelling Python dict access
(the dicts built by this code never hold duplicate keys). -/
def lookupField : List (String × JVal) → String → Option JVal
  | [], _ => none
  | (k, v) :: rest, key => if k == key then some v else lookupField rest key

/-- Python `d.get(k)`: `none` when the key is absent. -/
def JVal.get? : JVal → String → Option JVal
  | .obj fs, k => lookupField fs k
  | _, _ => none

/-- Python `d.get(k, default)`. -/
def JVal.getD (v : JVal) (k : String) (d : JVal) : JVal := (v.get? k).getD d

/-- Python `d[k] = v`: replace the value of an existing key in place,
otherwise append the new key at the end (insertion order is preserved). -/
def setField : List (String × JVal) → String → JVal → List (String × JVal)
  | [], k, v => [(k, v)]
  | (k0, v0) :: rest, k, v =>
      if k0 == k then (k0, v) :: rest else (k0, v0) :: setField rest k v

/-- Python truthiness of a JSON value (`None`, `False`, `0`, `""`, `[]` and
`{}` are falsy). -/
def JVal.truthy : JVal → Bool
  | .null => false
  | .bool b => b
  | .str s => !(s == "")
  | .num n => !(n == 0)
  | .arr xs => !xs.isEmpty
  | .obj fs => !fs.isEmpty

/-- Python `v == "lit"` for a string literal: true exactly when `v` is that
string (comparison of a non-string against a string literal is `False`). -/
def JVal.isStr : JVal → String → Bool
  | .str s, t => s == t
  | _, _ => false

/-- Python `str()` as used inside f-string error messages.  Faithful on the
scalars that actually reach messages; container renderings are abbreviated
(no claim depends on the rendering of a container inside a message). -/
def pyStr : JVal → String
  | .null => "None"
  | .bool true => "True"
  | .bool false => "False"
  | .str s => s
  | .num n => toString n
  | .arr _ => "[...]"
  | .obj _ => "\x7b...\x7d"

/-- Python `s.lower()` (ASCII case folding, which is all the repository
compares: destinations against "atlantis" and "antarctica"). -/
def pyLower (s : String) : String := String.mk (s.data.map Char.toLower)

/-- oracle for one booking-agent call in `llm_agents.py`: the outcome of
`random.random() < p`, the generated `ref_id`, the raw LLM text, and the
outcome of `json.loads` on that text (`none` models a JSONDecodeError). -/
structure AgentEnv where
  randFail : Bool
  refId : String
  llmText : String
  parsed : Option JVal

/-- oracle for one payment-activity call in `activities.py`: the outcome of
`random.random() < 0.10`, the generated payment-reference body, and the
`random.randint` fallback price. -/
structure PayEnv where
  randFail : Bool
  refSuffix : String
  randPrice : Int

/-- Python `nights > 14` and the like: defined on ints and bools (Python
bools are ints); any other operand raises a TypeError. -/
def jGtInt : JVal → Int → Except String Bool
  | .num n, k => .ok (decide (n > k))
  | .bool b, k => .ok (decide ((if b then (1 : Int) else 0) > k))
  | _, _ => .error "TypeError: unsupported comparison"

/-- flight_agent_book of `llm_agents.py`.  Fails for destination "Atlantis"
in any letter case or when the random draw fails; the fail branch forces
`success = False` on the parsed reply, the success branch forces
`success = True` and `confirmation = ref_id`.  A reply that parses to a
non-dict makes the item assignment raise a TypeError. -/
def flight_agent_book (env : AgentEnv) (destination : JVal) (_travel_date : JVal) :
    Except String JVal :=
  match destination with
  | .str d =>
    let should_fail := (pyLower d == "atlantis") || env.randFail
    if should_fail then
      let result : JVal :=
        match env.parsed with
        | some v => v
        | none => .obj [("success", .bool false), ("error", .str env.llmText),
                        ("ref", .str env.refId)]
      match result with
      | .obj fs => .ok (.obj (setField fs "success" (.bool false)))
      | _ => .error "TypeError: item assignment on non-dict"
    else
      let result : JVal :=
        match env.parsed with
        | some v => v
        | none => .obj [("success", .bool true), ("confirmation", .str env.refId),
                        ("destination", destination), ("raw", .str env.llmText)]
      match result with
      | .obj fs =>
          .ok (.obj (setField (setField fs "success" (.bool true))
                "confirmation" (.str env.refId)))
      | _ => .error "TypeError: item assignment on non-dict"
  | _ => .error "AttributeError: lower"

/-- hotel_agent_book of `llm_agents.py`.  Fails when `nights > 14` or the
random draw fails; a non-numeric `nights` makes the comparison raise. -/
def hotel_agent_book (env : AgentEnv) (destination : JVal) (nights : JVal)
    (_check_in : JVal) : Except String JVal :=
  match jGtInt nights 14 with
  | .error e => .error e
  | .ok tooLong =>
    let should_fail := tooLong || env.randFail
    if should_fail then
      let result : JVal :=
        match env.parsed with
        | some v => v
        | none => .obj [("success", .bool false), ("error", .str env.llmText),
                        ("ref", .str env.refId)]
      match result with
      | .obj fs => .ok (.obj (setField fs "success" (.bool false)))
      | _ => .error "TypeError: item assignment on non-dict"
    else
      let result : JVal :=
        match env.parsed with
        | some v => v
        | none => .obj [("success", .bool true), ("confirmation", .str env.refId),
                        ("destination", destination), ("raw", .str env.llmText)]
      match result with
      | .obj fs =>
          .ok (.obj (setField (setField fs "success" (.bool true))
                "confirmation" (.str env.refId)))
      | _ => .error "TypeError: item assignment on non-dict"

/-- car_agent_book of `llm_agents.py`.  Fails for destination "Antarctica"
in any letter case or when the random draw fails. -/
def car_agent_book (env : AgentEnv) (destination : JVal) (_days : JVal) :
    Except String JVal :=
  match destination with
  | .str d =>
    let should_fail := (pyLower d == "antarctica") || env.randFail
    if should_fail then
      let result : JVal :=
        match env.parsed with
        | some v => v
        | none => .obj [("success", .bool false), ("error", .str env.llmText),
                        ("ref", .str env.refId)]
      match result with
      | .obj fs => .ok (.obj (setField fs "success" (.bool false)))
      | _ => .error "TypeError: item assignment on non-dict"
    else
      let result : JVal :=
        match env.parsed with
        | some v => v
        | none => .obj [("success", .bool true), ("confirmation", .str env.refId),
                        ("destination", destination), ("raw", .str env.llmText)]
      match result with
      | .obj fs =>
          .ok (.obj (setField (setField fs "success" (.bool true))
                "confirmation" (.str env.refId)))
      | _ => .error "TypeError: item assignment on non-dict"
  | _ => .error "AttributeError: lower"

/-- book_flight_activity of `activities.py`: call the flight agent, raise
when the agent reports no success, otherwise return the agent result. -/
def book_flight_activity (env : AgentEnv) (input : JVal) : Except String JVal :=
  match input.get? "destination" with
  | none => .error "KeyError: destination"
  | some destination =>
    let travel_date := (input.get? "travel_date").getD .null
    match flight_agent_book env destination travel_date with
    | .error e => .error e
    | .ok result =>
      if (result.getD "success" .null).truthy then .ok result
      else .error ("Flight booking failed: "
        ++ pyStr (result.getD "error" (.str "Flight booking failed")))

/-- book_hotel_activity of `activities.py`. -/
def book_hotel_activity (env : AgentEnv) (input : JVal) : Except String JVal :=
  match input.get? "destination" with
  | none => .error "KeyError: destination"
  | some destination =>
    let nights := input.getD "nights" (.num 3)
    let check_in := (input.get? "check_in").getD .null
    match hotel_agent_book env destination nights check_in with
    | .error e => .error e
    | .ok result =>
      if (result.getD "success" .null).truthy then .ok result
      else .error ("Hotel booking failed: "
        ++ pyStr (result.getD "error" (.str "Hotel booking failed")))

/-- book_car_activity of `activities.py`. -/
def book_car_activity (env : AgentEnv) (input : JVal) : Except String JVal :=
  match input.get? "destination" with
  | none => .error "KeyError: destination"
  | some destination =>
    let days := input.getD "days" (.num 3)
    match car_agent_book env destination days with
    | .error e => .error e
    | .ok result =>
      if (result.getD "success" .null).truthy then .ok result
      else .error ("Car hire booking failed: "
        ++ pyStr (result.getD "error" (.str "Car hire booking failed")))

/-- process_flight_payment of `activities.py`: declines when the random
draw fails, otherwise returns a completed payment record. -/
def process_flight_payment (env : PayEnv) (input : JVal) : Except String JVal :=
  let confirmation := input.getD "confirmation" (.str "unknown")
  let price := input.getD "price" (.num env.randPrice)
  if env.randFail then
    .error ("Payment declined for flight " ++ pyStr confirmation
      ++ ". Card ending in **4242 was rejected by the payment processor.")
  else
    .ok (.obj [("payment_ref", .str ("PAY-FL-" ++ env.refSuffix)),
               ("amount", price), ("currency", .str "USD"),
               ("status", .str "completed"), ("booking_ref", confirmation)])

/-- process_hotel_payment of `activities.py`. -/
def process_hotel_payment (env : PayEnv) (input : JVal) : Except String JVal :=
  let confirmation := input.getD "confirmation" (.str "unknown")
  let price := input.getD "total_price" (.num env.randPrice)
  if env.randFail then
    .error ("Payment declined for hotel " ++ pyStr confirmation
      ++ ". Insufficient funds on card ending in **4242.")
  else
    .ok (.obj [("payment_ref", .str ("PAY-HT-" ++ env.refSuffix)),
               ("amount", price), ("currency", .str "USD"),
               ("status", .str "completed"), ("booking_ref", confirmation)])

/-- process_car_payment of `activities.py`. -/
def process_car_payment (env : PayEnv) (input : JVal) : Except String JVal :=
  let confirmation := input.getD "confirmation" (.str "unknown")
  let price := input.getD "total_price" (.num env.randPrice)
  if env.randFail then
    .error ("Payment declined for car hire " ++ pyStr confirmation
      ++ ". Card verification failed for card ending in **4242.")
  else
    .ok (.obj [("payment_ref", .str ("PAY-CR-" ++ env.refSuffix)),
               ("amount", price), ("currency", .str "USD"),
               ("status", .str "completed"), ("booking_ref", confirmation)])

/-- cancel_flight_activity of `activities.py`: a total compensation, never
raising on dict inputs. -/
def cancel_flight_activity (input : JVal) : JVal :=
  .obj [("cancelled", .bool true),
        ("booking_ref", input.getD "confirmation" (.str "unknown")),
        ("refunded_payment", (input.get? "payment_ref").getD .null),
        ("service", .str "flight")]

/-- cancel_hotel_activity of `activities.py`. -/
def cancel_hotel_activity (input : JVal) : JVal :=
  .obj [("cancelled", .bool true),
        ("booking_ref", input.getD "confirmation" (.str "unknown")),
        ("refunded_payment", (input.get? "payment_ref").getD .null),
        ("service", .str "hotel")]

/-- cancel_car_activity of `activities.py`. -/
def cancel_car_activity (input : JVal) : JVal :=
  .obj [("cancelled", .bool true),
        ("booking_ref", input.getD "confirmation" (.str "unknown")),
        ("refunded_payment", (input.get? "payment_ref").getD .null),
        ("service", .str "car")]

/-- one scheduled work item: the registered name of the activity or
sub-orchestrator and the input it was scheduled with. -/
structure ActCall where
  name : String
  input : JVal
deriving Repr

/-- oracles for one run of a per-service saga: one agent call and one
payment call. -/
structure ServiceEnv where
  book : AgentEnv
  pay : PayEnv

/-- one orchestration run, a deterministic function of input and oracles:
the returned value (`.error` when a fault escapes the orchestrator), the
work items this orchestrator scheduled in order (`sched`), and the
flattened activity executions including sub-orchestrations (`acts`). -/
structure SagaRun where
  result : Except String JVal
  sched : List ActCall
  acts : List ActCall
deriving Repr

/-- flight_booking_saga of `sagas.py`: book, then pay; on a payment
exception schedule the cancellation with the booking as input and return a
compensated failure; on a booking exception return an uncompensated
failure. -/
def flight_booking_saga (env : ServiceEnv) (input : JVal) : SagaRun :=
  match input.get? "destination" with
  | none => { result := .error "KeyError: destination", sched := [], acts := [] }
  | some destination =>
    let travel_date := (input.get? "travel_date").getD .null
    let bookIn : JVal := .obj [("destination", destination), ("travel_date", travel_date)]
    match book_flight_activity env.book bookIn with
    | .error e =>
        { result := .ok (.obj [("status", .str "failed"), ("service", .str "flight"),
            ("error", .str e), ("compensated", .bool false)]),
          sched := [⟨"book_flight_activity", bookIn⟩],
          acts := [⟨"book_flight_activity", bookIn⟩] }
    | .ok booking =>
      match process_flight_payment env.pay booking with
      | .error payErr =>
          { result := .ok (.obj [("status", .str "failed"), ("service", .str "flight"),
              ("error", .str ("Payment failed: " ++ payErr)),
              ("compensated", .bool true)]),
            sched := [⟨"book_flight_activity", bookIn⟩,
                      ⟨"process_flight_payment", booking⟩,
                      ⟨"cancel_flight_activity", booking⟩],
            acts := [⟨"book_flight_activity", bookIn⟩,
                     ⟨"process_flight_payment", booking⟩,
                     ⟨"cancel_flight_activity", booking⟩] }
      | .ok payment =>
          { result := .ok (.obj [("status", .str "success"), ("service", .str "flight"),
              ("booking", booking), ("payment", payment)]),
            sched := [⟨"book_flight_activity", bookIn⟩,
                      ⟨"process_flight_payment", booking⟩],
            acts := [⟨"book_flight_activity", bookIn⟩,
                     ⟨"process_flight_payment", booking⟩] }

/-- hotel_booking_saga of `sagas.py`. -/
def hotel_booking_saga (env : ServiceEnv) (input : JVal) : SagaRun :=
  match input.get? "destination" with
  | none => { result := .error "KeyError: destination", sched := [], acts := [] }
  | some destination =>
    let nights := input.getD "nights" (.num 3)
    let check_in := (input.get? "check_in").getD .null
    let bookIn : JVal := .obj [("destination", destination), ("nights", nights),
                               ("check_in", check_in)]
    match book_hotel_activity env.book bookIn with
    | .error e =>
        { result := .ok (.obj [("status", .str "failed"), ("service", .str "hotel"),
            ("error", .str e), ("compensated", .bool false)]),
          sched := [⟨"book_hotel_activity", bookIn⟩],
          acts := [⟨"book_hotel_activity", bookIn⟩] }
    | .ok booking =>
      match process_hotel_payment env.pay booking with
      | .error payErr =>
          { result := .ok (.obj [("status", .str "failed"), ("service", .str "hotel"),
              ("error", .str ("Payment failed: " ++ payErr)),
              ("compensated", .bool true)]),
            sched := [⟨"book_hotel_activity", bookIn⟩,
                      ⟨"process_hotel_payment", booking⟩,
                      ⟨"cancel_hotel_activity", booking⟩],
            acts := [⟨"book_hotel_activity", bookIn⟩,
                     ⟨"process_hotel_payment", booking⟩,
                     ⟨"cancel_hotel_activity", booking⟩] }
      | .ok payment =>
          { result := .ok (.obj [("status", .str "success"), ("service", .str "hotel"),
              ("booking", booking), ("payment", payment)]),
            sched := [⟨"book_hotel_activity", bookIn⟩,
                      ⟨"process_hotel_payment", booking⟩],
            acts := [⟨"book_hotel_activity", bookIn⟩,
                     ⟨"process_hotel_payment", booking⟩] }

/-- car_hire_booking_saga of `sagas.py`. -/
def car_hire_booking_saga (env : ServiceEnv) (input : JVal) : SagaRun :=
  match input.get? "destination" with
  | none => { result := .error "KeyError: destination", sched := [], acts := [] }
  | some destination =>
    let days := input.getD "days" (.num 3)
    let bookIn : JVal := .obj [("destination", destination), ("days", days)]
    match book_car_activity env.book bookIn with
    | .error e =>
        { result := .ok (.obj [("status", .str "failed"), ("service", .str "car"),
            ("error", .str e), ("compensated", .bool false)]),
          sched := [⟨"book_car_activity", bookIn⟩],
          acts := [⟨"book_car_activity", bookIn⟩] }
    | .ok booking =>
      match process_car_payment env.pay booking with
      | .error payErr =>
          { result := .ok (.obj [("status", .str "failed"), ("service", .str "car"),
              ("error", .str ("Payment failed: " ++ payErr)),
              ("compensated", .bool true)]),
            sched := [⟨"book_car_activity", bookIn⟩,
                      ⟨"process_car_payment", booking⟩,
                      ⟨"cancel_car_activity", booking⟩],
            acts := [⟨"book_car_activity", bookIn⟩,
                     ⟨"process_car_payment", booking⟩,
                     ⟨"cancel_car_activity", booking⟩] }
      | .ok payment =>
          { result := .ok (.obj [("status", .str "success"), ("service", .str "car"),
              ("booking", booking), ("payment", payment)]),
            sched := [⟨"book_car_activity", bookIn⟩,
                      ⟨"process_car_payment", booking⟩],
            acts := [⟨"book_car_activity", bookIn⟩,
                     ⟨"process_car_payment", booking⟩] }

/-- one entry of the `completed` list in travel_booking_saga: the sub-saga
result together with the registered name and function of its compensation
activity. -/
structure CompletedStep where
  res : JVal
  cancelName : String
  cancelFn : JVal → JVal

/-- comp_input of the compensation loop in travel_booking_saga: extract the
confirmation of the booking and the payment reference of the previously
completed step; `none` models the KeyError fault when a key is absent. -/
def compInputOf (prev : JVal) : Option JVal :=
  match prev.get? "booking" with
  | none => none
  | some b =>
    match b.get? "confirmation" with
    | none => none
    | some conf =>
      match prev.get? "payment" with
      | none => none
      | some p =>
        match p.get? "payment_ref" with
        | none => none
        | some pr => some (.obj [("confirmation", conf), ("payment_ref", pr)])

/-- compensation loop of travel_booking_saga over an already-reversed
`completed` list: invoke each compensation activity with its comp_input,
collecting results and scheduled calls; a KeyError faults the loop, keeping
the calls already issued. -/
def runCompensations : List CompletedStep → Except String (List JVal) × List ActCall
  | [] => (.ok [], [])
  | step :: rest =>
    match compInputOf step.res with
    | none => (.error "KeyError", [])
    | some ci =>
      match runCompensations rest with
      | (.ok comps, calls) =>
          (.ok (step.cancelFn ci :: comps), ⟨step.cancelName, ci⟩ :: calls)
      | (.error e, calls) => (.error e, ⟨step.cancelName, ci⟩ :: calls)

/-- input dict the composite saga passes to the flight sub-orchestration. -/
def travelFlightIn (destination travel_date : JVal) : JVal :=
  .obj [("destination", destination), ("travel_date", travel_date)]

/-- input dict the composite saga passes to the hotel sub-orchestration;
check_in is the travel_date of the trip. -/
def travelHotelIn (destination nights travel_date : JVal) : JVal :=
  .obj [("destination", destination), ("nights", nights), ("check_in", travel_date)]

/-- input dict the composite saga passes to the car-hire sub-orchestration;
days is the nights value of the trip. -/
def travelCarIn (destination nights : JVal) : JVal :=
  .obj [("destination", destination), ("days", nights)]

/-- oracles for one run of the composite saga: one per sub-orchestration. -/
structure TravelEnv where
  flight : ServiceEnv
  hotel : ServiceEnv
  car : ServiceEnv

/-- travel_booking_saga of `sagas.py`: run the three per-service sagas as
sub-orchestrations in the order flight, hotel, car; on the first non-success
result, compensate the previously completed steps in reverse insertion
order and return the failed stage with the compensation results. -/
def travel_booking_saga (env : TravelEnv) (input : JVal) : SagaRun :=
  match input.get? "destination" with
  | none => { result := .error "KeyError: destination", sched := [], acts := [] }
  | some destination =>
  let nights := input.getD "nights" (.num 3)
  let travel_date := (input.get? "travel_date").getD .null
  let fIn := travelFlightIn destination travel_date
  let fRun := flight_booking_saga env.flight fIn
  let sched1 : List ActCall := [⟨"flight_booking_saga", fIn⟩]
  match fRun.result with
  | .error e => { result := .error e, sched := sched1, acts := fRun.acts }
  | .ok flight_result =>
  match flight_result.get? "status" with
  | none => { result := .error "KeyError: status", sched := sched1, acts := fRun.acts }
  | some fst =>
  if fst.isStr "success" then
    let completed1 : List CompletedStep :=
      [⟨flight_result, "cancel_flight_activity", cancel_flight_activity⟩]
    let hIn := travelHotelIn destination nights travel_date
    let hRun := hotel_booking_saga env.hotel hIn
    let sched2 := sched1 ++ [⟨"hotel_booking_saga", hIn⟩]
    match hRun.result with
    | .error e => { result := .error e, sched := sched2, acts := fRun.acts ++ hRun.acts }
    | .ok hotel_result =>
    match hotel_result.get? "status" with
    | none => { result := .error "KeyError: status", sched := sched2,
                acts := fRun.acts ++ hRun.acts }
    | some hst =>
    if hst.isStr "success" then
      let completed2 := completed1
        ++ [⟨hotel_result, "cancel_hotel_activity", cancel_hotel_activity⟩]
      let cIn := travelCarIn destination nights
      let cRun := car_hire_booking_saga env.car cIn
      let sched3 := sched2 ++ [⟨"car_hire_booking_saga", cIn⟩]
      match cRun.result with
      | .error e => { result := .error e, sched := sched3,
                      acts := fRun.acts ++ hRun.acts ++ cRun.acts }
      | .ok car_result =>
      match car_result.get? "status" with
      | none => { result := .error "KeyError: status", sched := sched3,
                  acts := fRun.acts ++ hRun.acts ++ cRun.acts }
      | some cst =>
      if cst.isStr "success" then
        { result := .ok (.obj [("status", .str "success"),
            ("destination", destination),
            ("bookings", .obj [("flight", flight_result), ("hotel", hotel_result),
                               ("car", car_result)])]),
          sched := sched3, acts := fRun.acts ++ hRun.acts ++ cRun.acts }
      else
        match runCompensations completed2.reverse with
        | (.ok comps, calls) =>
            { result := .ok (.obj [("status", .str "failed"), ("stage", .str "car"),
                ("error", car_result.getD "error" (.str "Car hire booking failed")),
                ("compensations", .arr comps)]),
              sched := sched3 ++ calls,
              acts := fRun.acts ++ hRun.acts ++ cRun.acts ++ calls }
        | (.error e, calls) =>
            { result := .error e, sched := sched3 ++ calls,
              acts := fRun.acts ++ hRun.acts ++ cRun.acts ++ calls }
    else
      match runCompensations completed1.reverse with
      | (.ok comps, calls) =>
          { result := .ok (.obj [("status", .str "failed"), ("stage", .str "hotel"),
              ("error", hotel_result.getD "error" (.str "Hotel booking failed")),
              ("compensations", .arr comps)]),
            sched := sched2 ++ calls,
            acts := fRun.acts ++ hRun.acts ++ calls }
      | (.error e, calls) =>
          { result := .error e, sched := sched2 ++ calls,
            acts := fRun.acts ++ hRun.acts ++ calls }
  else
    { result := .ok (.obj [("status", .str "failed"), ("stage", .str "flight"),
        ("error", flight_result.getD "error" (.str "Flight booking failed")),
        ("compensations", .arr [])]),
      sched := sched1, acts := fRun.acts }

/-- terminal orchestration state as seen by the Durable Task client:
serialized output text and runtime status name. -/
structure DtsState where
  serializedOutput : Option String
  runtimeStatus : String

/-- the schedule-and-wait operation of `function_app.py` (source name
`_run_saga`), modelled after scheduling: `instance_id` is the id returned
by schedule_new_orchestration, `state` the value wait_for_orchestration
returned (`none` on timeout), `jsonLoads` the outcome of `json.loads`
(`none` models a JSONDecodeError).  The json.dumps serialization of the
returned object is left implicit; the `.error` case models the TypeError
of item assignment when an output deserializes to a non-dict. -/
def run_saga (instance_id : String) (state : Option DtsState)
    (jsonLoads : String → Option JVal) (timeout : Int) : Except String JVal :=
  match state with
  | none =>
      .ok (.obj [("status", .str "timeout"),
        ("instance_id", .str instance_id),
        ("message", .str ("Orchestration did not complete within "
          ++ toString timeout ++ "s. Check status at /api/travel-status/"
          ++ instance_id))])
  | some st =>
    let output : JVal :=
      match st.serializedOutput with
      | none => .obj []
      | some s =>
        if s == "" then .obj []
        else
          match jsonLoads s with
          | some v => v
          | none => .obj [("raw_output", .str s)]
    match output with
    | .obj fs =>
        .ok (.obj (setField (setField fs "instance_id" (.str instance_id))
          "runtime_status" (.str st.runtimeStatus)))
    | _ => .error "TypeError: item assignment on non-dict"

/-- number of activity executions with a given registered name in a trace. -/
def actCount (n : String) (calls : List ActCall) : Nat :=
  (calls.filter (fun c => c.name == n)).length

/-- Python `flight_result["status"] == "success"` on the value returned by a
sub-orchestration (false when the sub-orchestration faulted or the status
key is absent, in which cases the composite saga never proceeds). -/
def okSuccess : Except String JVal → Bool
  | .ok v => (v.getD "status" .null).isStr "success"
  | .error _ => false

lemma isStr_self (s : String) : (JVal.str s).isStr s = true := by
  simp [JVal.isStr]

lemma isStr_true_iff (v : JVal) (s : String) : v.isStr s = true ↔ v = .str s := by
  cases v <;> simp [JVal.isStr]

lemma lookupField_setField_self (l : List (String × JVal)) (k : String) (v : JVal) :
    lookupField (setField l k v) k = some v := by
  induction l with
  | nil => simp [setField, lookupField]
  | cons hd tl ih =>
    obtain ⟨k0, v0⟩ := hd
    by_cases h : (k0 == k) = true
    · simp [setField, h, lookupField]
    · simp only [Bool.not_eq_true] at h
      simp [setField, h, lookupField, ih]

lemma lookupField_setField_ne (l : List (String × JVal)) (k k0 : String) (v : JVal)
    (h : (k0 == k) = false) :
    lookupField (setField l k0 v) k = lookupField l k := by
  induction l with
  | nil => simp [setField, lookupField, h]
  | cons hd tl ih =>
    obtain ⟨k1, v1⟩ := hd
    by_cases h1 : (k1 == k0) = true
    · have : k1 = k0 := by simpa using h1
      subst this
      simp [setField, h1, lookupField, h]
    · simp only [Bool.not_eq_true] at h1
      by_cases h2 : (k1 == k) = true
      · simp [setField, h1, lookupField, h2]
      · simp only [Bool.not_eq_true] at h2
        simp [setField, h1, lookupField, h2, ih]

lemma actCount_nil (n : String) : actCount n [] = 0 := rfl

lemma actCount_append (n : String) (l1 l2 : List ActCall) :
    actCount n (l1 ++ l2) = actCount n l1 + actCount n l2 := by
  simp [actCount, List.filter_append]

/-- a successful payment record always reports status "completed" and
carries its payment_ref. -/
lemma process_flight_payment_ok (env : PayEnv) (b p : JVal)
    (h : process_flight_payment env b = .ok p) :
    p.get? "status" = some (.str "completed") ∧
    p.get? "payment_ref" = some (.str ("PAY-FL-" ++ env.refSuffix)) := by
  unfold process_flight_payment at h
  cases hf : env.randFail <;> simp [hf] at h
  subst h
  simp [JVal.get?, lookupField]

lemma process_hotel_payment_ok (env : PayEnv) (b p : JVal)
    (h : process_hotel_payment env b = .ok p) :
    p.get? "status" = some (.str "completed") ∧
    p.get? "payment_ref" = some (.str ("PAY-HT-" ++ env.refSuffix)) := by
  unfold process_hotel_payment at h
  cases hf : env.randFail <;> simp [hf] at h
  subst h
  simp [JVal.get?, lookupField]

lemma process_car_payment_ok (env : PayEnv) (b p : JVal)
    (h : process_car_payment env b = .ok p) :
    p.get? "status" = some (.str "completed") ∧
    p.get? "payment_ref" = some (.str ("PAY-CR-" ++ env.refSuffix)) := by
  unfold process_car_payment at h
  cases hf : env.randFail <;> simp [hf] at h
  subst h
  simp [JVal.get?, lookupField]

/-- a booking-agent reply, when it returns at all, has a forced success
flag; on the success path the confirmation is forced to the ref id. -/
lemma flight_agent_ok (env : AgentEnv) (dest td r : JVal)
    (h : flight_agent_book env dest td = .ok r) :
    r.get? "success" = some (.bool false) ∨
    (r.get? "success" = some (.bool true) ∧
     r.get? "confirmation" = some (.str env.refId)) := by
  unfold flight_agent_book at h
  cases dest <;> simp at h
  split at h
  · split at h
    · injection h with h
      subst h
      left
      simp [JVal.get?, lookupField_setField_self]
    · simp at h
  · split at h
    · injection h with h
      subst h
      right
      constructor
      · show lookupField _ "success" = _
        rw [lookupField_setField_ne _ _ _ _ (by decide), lookupField_setField_self]
      · exact lookupField_setField_self _ _ _
    · simp at h

lemma hotel_agent_ok (env : AgentEnv) (dest nights ci r : JVal)
    (h : hotel_agent_book env dest nights ci = .ok r) :
    r.get? "success" = some (.bool false) ∨
    (r.get? "success" = some (.bool true) ∧
     r.get? "confirmation" = some (.str env.refId)) := by
  unfold hotel_agent_book at h
  rcases hgt : jGtInt nights 14 with e | tooLong <;> simp only [hgt] at h
  · exact Except.noConfusion h
  · split at h
    · split at h
      · injection h with h
        subst h
        left
        simp [JVal.get?, lookupField_setField_self]
      · exact Except.noConfusion h
    · split at h
      · injection h with h
        subst h
        right
        constructor
        · show lookupField _ "success" = _
          rw [lookupField_setField_ne _ _ _ _ (by decide), lookupField_setField_self]
        · exact lookupField_setField_self _ _ _
      · exact Except.noConfusion h

lemma car_agent_ok (env : AgentEnv) (dest days r : JVal)
    (h : car_agent_book env dest days = .ok r) :
    r.get? "success" = some (.bool false) ∨
    (r.get? "success" = some (.bool true) ∧
     r.get? "confirmation" = some (.str env.refId)) := by
  unfold car_agent_book at h
  cases dest <;> simp at h
  split at h
  · split at h
    · injection h with h
      subst h
      left
      simp [JVal.get?, lookupField_setField_self]
    · simp at h
  · split at h
    · injection h with h
      subst h
      right
      constructor
      · show lookupField _ "success" = _
        rw [lookupField_setField_ne _ _ _ _ (by decide), lookupField_setField_self]
      · exact lookupField_setField_self _ _ _
    · simp at h

/-- shape of a successfully delivered booking: the booking activity returns
only agent replies whose success flag is true, and those carry the
generated confirmation id. -/
lemma book_flight_activity_ok (env : AgentEnv) (input booking : JVal)
    (h : book_flight_activity env input = .ok booking) :
    booking.get? "success" = some (.bool true) ∧
    booking.get? "confirmation" = some (.str env.refId) := by
  unfold book_flight_activity at h
  rcases hdg : input.get? "destination" with _ | destination <;> simp only [hdg] at h
  · exact absurd h (by simp)
  · rcases hag : flight_agent_book env destination ((input.get? "travel_date").getD JVal.null)
      with e | result <;> simp only [hag] at h
    · exact absurd h (by simp)
    · rcases flight_agent_ok _ _ _ _ hag with hfalse | ⟨htrue, hconf⟩
      · rw [JVal.getD, hfalse] at h
        simp [JVal.truthy] at h
      · rw [JVal.getD, htrue] at h
        simp only [Option.getD_some, JVal.truthy, if_true] at h
        injection h with h
        subst h
        exact ⟨htrue, hconf⟩

lemma book_hotel_activity_ok (env : AgentEnv) (input booking : JVal)
    (h : book_hotel_activity env input = .ok booking) :
    booking.get? "success" = some (.bool true) ∧
    booking.get? "confirmation" = some (.str env.refId) := by
  unfold book_hotel_activity at h
  rcases hdg : input.get? "destination" with _ | destination <;> simp only [hdg] at h
  · exact absurd h (by simp)
  · rcases hag : hotel_agent_book env destination (input.getD "nights" (JVal.num 3))
      ((input.get? "check_in").getD JVal.null) with e | result <;> simp only [hag] at h
    · exact absurd h (by simp)
    · rcases hotel_agent_ok _ _ _ _ _ hag with hfalse | ⟨htrue, hconf⟩
      · rw [JVal.getD, hfalse] at h
        simp [JVal.truthy] at h
      · rw [JVal.getD, htrue] at h
        simp only [Option.getD_some, JVal.truthy, if_true] at h
        injection h with h
        subst h
        exact ⟨htrue, hconf⟩

lemma book_car_activity_ok (env : AgentEnv) (input booking : JVal)
    (h : book_car_activity env input = .ok booking) :
    booking.get? "success" = some (.bool true) ∧
    booking.get? "confirmation" = some (.str env.refId) := by
  unfold book_car_activity at h
  rcases hdg : input.get? "destination" with _ | destination <;> simp only [hdg] at h
  · exact absurd h (by simp)
  · rcases hag : car_agent_book env destination (input.getD "days" (JVal.num 3))
      with e | result <;> simp only [hag] at h
    · exact absurd h (by simp)
    · rcases car_agent_ok _ _ _ _ hag with hfalse | ⟨htrue, hconf⟩
      · rw [JVal.getD, hfalse] at h
        simp [JVal.truthy] at h
      · rw [JVal.getD, htrue] at h
        simp only [Option.getD_some, JVal.truthy, if_true] at h
        injection h with h
        subst h
        exact ⟨htrue, hconf⟩

/-- a delivered booking carries no payment_ref key, provided the parsed LLM
reply does not itself smuggle one in (the prompt schema has no such key). -/
lemma flight_agent_ok_no_payref (env : AgentEnv) (dest td r : JVal)
    (hp : ∀ fs, env.parsed = some (.obj fs) → lookupField fs "payment_ref" = none)
    (h : flight_agent_book env dest td = .ok r) :
    r.get? "payment_ref" = none := by
  unfold flight_agent_book at h
  cases dest
  case str d =>
    simp only [] at h
    split at h
    · rcases hpd : env.parsed with _ | v <;> simp only [hpd] at h
      · injection h with h
        subst h
        show lookupField _ "payment_ref" = none
        rw [lookupField_setField_ne _ _ _ _ (by decide)]
        simp [lookupField]
      · cases v
        case obj fs =>
          simp only [] at h
          injection h with h
          subst h
          show lookupField _ "payment_ref" = none
          rw [lookupField_setField_ne _ _ _ _ (by decide)]
          exact hp _ hpd
        all_goals exact Except.noConfusion h
    · rcases hpd : env.parsed with _ | v <;> simp only [hpd] at h
      · injection h with h
        subst h
        show lookupField _ "payment_ref" = none
        rw [lookupField_setField_ne _ _ _ _ (by decide),
          lookupField_setField_ne _ _ _ _ (by decide)]
        simp [lookupField]
      · cases v
        case obj fs =>
          simp only [] at h
          injection h with h
          subst h
          show lookupField _ "payment_ref" = none
          rw [lookupField_setField_ne _ _ _ _ (by decide),
            lookupField_setField_ne _ _ _ _ (by decide)]
          exact hp _ hpd
        all_goals exact Except.noConfusion h
  all_goals exact Except.noConfusion h

lemma hotel_agent_ok_no_payref (env : AgentEnv) (dest nights ci r : JVal)
    (hp : ∀ fs, env.parsed = some (.obj fs) → lookupField fs "payment_ref" = none)
    (h : hotel_agent_book env dest nights ci = .ok r) :
    r.get? "payment_ref" = none := by
  unfold hotel_agent_book at h
  rcases hgt : jGtInt nights 14 with e | tooLong <;> simp only [hgt] at h
  · exact Except.noConfusion h
  · split at h
    · rcases hpd : env.parsed with _ | v <;> simp only [hpd] at h
      · injection h with h
        subst h
        show lookupField _ "payment_ref" = none
        rw [lookupField_setField_ne _ _ _ _ (by decide)]
        simp [lookupField]
      · cases v
        case obj fs =>
          simp only [] at h
          injection h with h
          subst h
          show lookupField _ "payment_ref" = none
          rw [lookupField_setField_ne _ _ _ _ (by decide)]
          exact hp _ hpd
        all_goals exact Except.noConfusion h
    · rcases hpd : env.parsed with _ | v <;> simp only [hpd] at h
      · injection h with h
        subst h
        show lookupField _ "payment_ref" = none
        rw [lookupField_setField_ne _ _ _ _ (by decide),
          lookupField_setField_ne _ _ _ _ (by decide)]
        simp [lookupField]
      · cases v
        case obj fs =>
          simp only [] at h
          injection h with h
          subst h
          show lookupField _ "payment_ref" = none
          rw [lookupField_setField_ne _ _ _ _ (by decide),
            lookupField_setField_ne _ _ _ _ (by decide)]
          exact hp _ hpd
        all_goals exact Except.noConfusion h

lemma car_agent_ok_no_payref (env : AgentEnv) (dest days r : JVal)
    (hp : ∀ fs, env.parsed = some (.obj fs) → lookupField fs "payment_ref" = none)
    (h : car_agent_book env dest days = .ok r) :
    r.get? "payment_ref" = none := by
  unfold car_agent_book at h
  cases dest
  case str d =>
    simp only [] at h
    split at h
    · rcases hpd : env.parsed with _ | v <;> simp only [hpd] at h
      · injection h with h
        subst h
        show lookupField _ "payment_ref" = none
        rw [lookupField_setField_ne _ _ _ _ (by decide)]
        simp [lookupField]
      · cases v
        case obj fs =>
          simp only [] at h
          injection h with h
          subst h
          show lookupField _ "payment_ref" = none
          rw [lookupField_setField_ne _ _ _ _ (by decide)]
          exact hp _ hpd
        all_goals exact Except.noConfusion h
    · rcases hpd : env.parsed with _ | v <;> simp only [hpd] at h
      · injection h with h
        subst h
        show lookupField _ "payment_ref" = none
        rw [lookupField_setField_ne _ _ _ _ (by decide),
          lookupField_setField_ne _ _ _ _ (by decide)]
        simp [lookupField]
      · cases v
        case obj fs =>
          simp only [] at h
          injection h with h
          subst h
          show lookupField _ "payment_ref" = none
          rw [lookupField_setField_ne _ _ _ _ (by decide),
            lookupField_setField_ne _ _ _ _ (by decide)]
          exact hp _ hpd
        all_goals exact Except.noConfusion h
  all_goals exact Except.noConfusion h

lemma book_flight_activity_ok_no_payref (env : AgentEnv) (input booking : JVal)
    (hp : ∀ fs, env.parsed = some (.obj fs) → lookupField fs "payment_ref" = none)
    (h : book_flight_activity env input = .ok booking) :
    booking.get? "payment_ref" = none := by
  unfold book_flight_activity at h
  rcases hdg : input.get? "destination" with _ | destination <;> simp only [hdg] at h
  · exact Except.noConfusion h
  · rcases hag : flight_agent_book env destination ((input.get? "travel_date").getD JVal.null)
      with e | result <;> simp only [hag] at h
    · exact Except.noConfusion h
    · split at h
      · injection h with h
        subst h
        exact flight_agent_ok_no_payref _ _ _ _ hp hag
      · exact Except.noConfusion h

lemma book_hotel_activity_ok_no_payref (env : AgentEnv) (input booking : JVal)
    (hp : ∀ fs, env.parsed = some (.obj fs) → lookupField fs "payment_ref" = none)
    (h : book_hotel_activity env input = .ok booking) :
    booking.get? "payment_ref" = none := by
  unfold book_hotel_activity at h
  rcases hdg : input.get? "destination" with _ | destination <;> simp only [hdg] at h
  · exact Except.noConfusion h
  · rcases hag : hotel_agent_book env destination (input.getD "nights" (JVal.num 3))
      ((input.get? "check_in").getD JVal.null) with e | result <;> simp only [hag] at h
    · exact Except.noConfusion h
    · split at h
      · injection h with h
        subst h
        exact hotel_agent_ok_no_payref _ _ _ _ _ hp hag
      · exact Except.noConfusion h

lemma book_car_activity_ok_no_payref (env : AgentEnv) (input booking : JVal)
    (hp : ∀ fs, env.parsed = some (.obj fs) → lookupField fs "payment_ref" = none)
    (h : book_car_activity env input = .ok booking) :
    booking.get? "payment_ref" = none := by
  unfold book_car_activity at h
  rcases hdg : input.get? "destination" with _ | destination <;> simp only [hdg] at h
  · exact Except.noConfusion h
  · rcases hag : car_agent_book env destination (input.getD "days" (JVal.num 3))
      with e | result <;> simp only [hag] at h
    · exact Except.noConfusion h
    · split at h
      · injection h with h
        subst h
        exact car_agent_ok_no_payref _ _ _ _ hp hag
      · exact Except.noConfusion h

/-- exhaustive case analysis of one composite-saga run: every run falls in
exactly one of the branches below, with the corresponding returned value,
scheduled work items and flattened activity trace. -/
lemma travel_cases (env : TravelEnv) (input : JVal) :
    (input.get? "destination" = none ∧
      travel_booking_saga env input =
        { result := .error "KeyError: destination", sched := [], acts := [] }) ∨
    (∃ destination fRun hRun cRun fc hc cc,
      input.get? "destination" = some destination ∧
      flight_booking_saga env.flight
        (travelFlightIn destination ((input.get? "travel_date").getD .null)) = fRun ∧
      hotel_booking_saga env.hotel
        (travelHotelIn destination (input.getD "nights" (.num 3))
          ((input.get? "travel_date").getD .null)) = hRun ∧
      car_hire_booking_saga env.car
        (travelCarIn destination (input.getD "nights" (.num 3))) = cRun ∧
      ActCall.mk "flight_booking_saga"
        (travelFlightIn destination ((input.get? "travel_date").getD .null)) = fc ∧
      ActCall.mk "hotel_booking_saga"
        (travelHotelIn destination (input.getD "nights" (.num 3))
          ((input.get? "travel_date").getD .null)) = hc ∧
      ActCall.mk "car_hire_booking_saga"
        (travelCarIn destination (input.getD "nights" (.num 3))) = cc ∧
      ((∃ e, fRun.result = .error e ∧
          travel_booking_saga env input =
            { result := .error e, sched := [fc], acts := fRun.acts }) ∨
       (∃ fv, fRun.result = .ok fv ∧ fv.get? "status" = none ∧
          travel_booking_saga env input =
            { result := .error "KeyError: status", sched := [fc], acts := fRun.acts }) ∨
       (∃ fv fst, fRun.result = .ok fv ∧ fv.get? "status" = some fst ∧
          fst.isStr "success" = false ∧
          travel_booking_saga env input =
            { result := .ok (.obj [("status", .str "failed"), ("stage", .str "flight"),
                ("error", fv.getD "error" (.str "Flight booking failed")),
                ("compensations", .arr [])]),
              sched := [fc], acts := fRun.acts }) ∨
       (∃ fv, fRun.result = .ok fv ∧ fv.get? "status" = some (.str "success") ∧
         ((∃ e, hRun.result = .error e ∧
             travel_booking_saga env input =
               { result := .error e, sched := [fc, hc], acts := fRun.acts ++ hRun.acts }) ∨
          (∃ hv, hRun.result = .ok hv ∧ hv.get? "status" = none ∧
             travel_booking_saga env input =
               { result := .error "KeyError: status", sched := [fc, hc],
                 acts := fRun.acts ++ hRun.acts }) ∨
          (∃ hv hst, hRun.result = .ok hv ∧ hv.get? "status" = some hst ∧
             hst.isStr "success" = false ∧
             ((compInputOf fv = none ∧
                 travel_booking_saga env input =
                   { result := .error "KeyError", sched := [fc, hc],
                     acts := fRun.acts ++ hRun.acts }) ∨
              (∃ ci, compInputOf fv = some ci ∧
                 travel_booking_saga env input =
                   { result := .ok (.obj [("status", .str "failed"),
                       ("stage", .str "hotel"),
                       ("error", hv.getD "error" (.str "Hotel booking failed")),
                       ("compensations", .arr [cancel_flight_activity ci])]),
                     sched := [fc, hc, ⟨"cancel_flight_activity", ci⟩],
                     acts := fRun.acts ++ hRun.acts
                       ++ [⟨"cancel_flight_activity", ci⟩] }))) ∨
          (∃ hv, hRun.result = .ok hv ∧ hv.get? "status" = some (.str "success") ∧
            ((∃ e, cRun.result = .error e ∧
                travel_booking_saga env input =
                  { result := .error e, sched := [fc, hc, cc],
                    acts := fRun.acts ++ hRun.acts ++ cRun.acts }) ∨
             (∃ cv, cRun.result = .ok cv ∧ cv.get? "status" = none ∧
                travel_booking_saga env input =
                  { result := .error "KeyError: status", sched := [fc, hc, cc],
                    acts := fRun.acts ++ hRun.acts ++ cRun.acts }) ∨
             (∃ cv cst, cRun.result = .ok cv ∧ cv.get? "status" = some cst ∧
                cst.isStr "success" = false ∧
                ((compInputOf hv = none ∧
                    travel_booking_saga env input =
                      { result := .error "KeyError", sched := [fc, hc, cc],
                        acts := fRun.acts ++ hRun.acts ++ cRun.acts }) ∨
                 (∃ ciH, compInputOf hv = some ciH ∧ compInputOf fv = none ∧
                    travel_booking_saga env input =
                      { result := .error "KeyError",
                        sched := [fc, hc, cc, ⟨"cancel_hotel_activity", ciH⟩],
                        acts := fRun.acts ++ hRun.acts ++ cRun.acts
                          ++ [⟨"cancel_hotel_activity", ciH⟩] }) ∨
                 (∃ ciH ciF, compInputOf hv = some ciH ∧ compInputOf fv = some ciF ∧
                    travel_booking_saga env input =
                      { result := .ok (.obj [("status", .str "failed"),
                          ("stage", .str "car"),
                          ("error", cv.getD "error" (.str "Car hire booking failed")),
                          ("compensations", .arr [cancel_hotel_activity ciH,
                            cancel_flight_activity ciF])]),
                        sched := [fc, hc, cc, ⟨"cancel_hotel_activity", ciH⟩,
                          ⟨"cancel_flight_activity", ciF⟩],
                        acts := fRun.acts ++ hRun.acts ++ cRun.acts
                          ++ [⟨"cancel_hotel_activity", ciH⟩,
                              ⟨"cancel_flight_activity", ciF⟩] }))) ∨
             (∃ cv, cRun.result = .ok cv ∧ cv.get? "status" = some (.str "success") ∧
                travel_booking_saga env input =
                  { result := .ok (.obj [("status", .str "success"),
                      ("destination", destination),
                      ("bookings", .obj [("flight", fv), ("hotel", hv),
                        ("car", cv)])]),
                    sched := [fc, hc, cc],
                    acts := fRun.acts ++ hRun.acts ++ cRun.acts }))))))) := by
  rcases hdg : input.get? "destination" with _ | destination
  · left
    refine ⟨rfl, ?_⟩
    unfold travel_booking_saga
    rw [hdg]
  · right
    refine ⟨destination, _, _, _, _, _, _, rfl, rfl, rfl, rfl, rfl, rfl, rfl, ?_⟩
    rcases hF : (flight_booking_saga env.flight
        (travelFlightIn destination ((input.get? "travel_date").getD .null))).result
      with e | fv
    · refine Or.inl ⟨e, rfl, ?_⟩
      unfold travel_booking_saga
      rw [hdg]
      simp only [hF]
    · rcases hfs : fv.get? "status" with _ | fst
      · refine Or.inr (Or.inl ⟨fv, rfl, hfs, ?_⟩)
        unfold travel_booking_saga
        rw [hdg]
        simp only [hF, hfs]
      · by_cases hsc : fst.isStr "success" = true
        · rw [isStr_true_iff] at hsc
          subst hsc
          refine Or.inr (Or.inr (Or.inr ⟨fv, rfl, hfs, ?_⟩))
          rcases hH : (hotel_booking_saga env.hotel
              (travelHotelIn destination (input.getD "nights" (.num 3))
                ((input.get? "travel_date").getD .null))).result with e | hv
          · refine Or.inl ⟨e, rfl, ?_⟩
            unfold travel_booking_saga
            rw [hdg]
            simp only [hF, hfs, isStr_self, if_true, hH, List.singleton_append,
              List.cons_append, List.nil_append]
          · rcases hhs : hv.get? "status" with _ | hst
            · refine Or.inr (Or.inl ⟨hv, rfl, hhs, ?_⟩)
              unfold travel_booking_saga
              rw [hdg]
              simp only [hF, hfs, isStr_self, if_true, hH, hhs,
                List.singleton_append, List.cons_append, List.nil_append]
            · by_cases hsc2 : hst.isStr "success" = true
              · rw [isStr_true_iff] at hsc2
                subst hsc2
                refine Or.inr (Or.inr (Or.inr ⟨hv, rfl, hhs, ?_⟩))
                rcases hC : (car_hire_booking_saga env.car
                    (travelCarIn destination (input.getD "nights" (.num 3)))).result
                  with e | cv
                · refine Or.inl ⟨e, rfl, ?_⟩
                  unfold travel_booking_saga
                  rw [hdg]
                  simp only [hF, hfs, isStr_self, if_true, hH, hhs, hC,
                    List.singleton_append, List.cons_append, List.nil_append,
                    List.append_assoc]
                · rcases hcs : cv.get? "status" with _ | cst
                  · refine Or.inr (Or.inl ⟨cv, rfl, hcs, ?_⟩)
                    unfold travel_booking_saga
                    rw [hdg]
                    simp only [hF, hfs, isStr_self, if_true, hH, hhs, hC, hcs,
                      List.singleton_append, List.cons_append, List.nil_append,
                      List.append_assoc]
                  · by_cases hsc3 : cst.isStr "success" = true
                    · rw [isStr_true_iff] at hsc3
                      subst hsc3
                      refine Or.inr (Or.inr (Or.inr ⟨cv, rfl, hcs, ?_⟩))
                      unfold travel_booking_saga
                      rw [hdg]
                      simp only [hF, hfs, isStr_self, if_true, hH, hhs, hC, hcs,
                        List.singleton_append, List.cons_append, List.nil_append,
                        List.append_assoc]
                    · simp only [Bool.not_eq_true] at hsc3
                      refine Or.inr (Or.inr (Or.inl ⟨cv, cst, rfl, hcs, hsc3, ?_⟩))
                      rcases hciH : compInputOf hv with _ | ciH
                      · refine Or.inl ⟨rfl, ?_⟩
                        unfold travel_booking_saga
                        rw [hdg]
                        simp only [hF, hfs, isStr_self, if_true, hH, hhs, hC, hcs,
                          hsc3, Bool.false_eq_true, if_false, runCompensations,
                          List.reverse_cons, List.reverse_singleton, List.reverse_nil,
                          hciH, List.singleton_append, List.cons_append,
                          List.nil_append, List.append_assoc, List.append_nil]
                      · rcases hciF : compInputOf fv with _ | ciF
                        · refine Or.inr (Or.inl ⟨ciH, rfl, rfl, ?_⟩)
                          unfold travel_booking_saga
                          rw [hdg]
                          simp only [hF, hfs, isStr_self, if_true, hH, hhs, hC, hcs,
                            hsc3, Bool.false_eq_true, if_false, runCompensations,
                            List.reverse_cons, List.reverse_singleton,
                            List.reverse_nil, hciH, hciF, List.singleton_append,
                            List.cons_append, List.nil_append, List.append_assoc,
                            List.append_nil]
                        · refine Or.inr (Or.inr ⟨ciH, ciF, rfl, rfl, ?_⟩)
                          unfold travel_booking_saga
                          rw [hdg]
                          simp only [hF, hfs, isStr_self, if_true, hH, hhs, hC, hcs,
                            hsc3, Bool.false_eq_true, if_false, runCompensations,
                            List.reverse_cons, List.reverse_singleton,
                            List.reverse_nil, hciH, hciF, List.singleton_append,
                            List.cons_append, List.nil_append, List.append_assoc,
                            List.append_nil]
              · simp only [Bool.not_eq_true] at hsc2
                refine Or.inr (Or.inr (Or.inl ⟨hv, hst, rfl, hhs, hsc2, ?_⟩))
                rcases hciF : compInputOf fv with _ | ci
                · refine Or.inl ⟨rfl, ?_⟩
                  unfold travel_booking_saga
                  rw [hdg]
                  simp only [hF, hfs, isStr_self, if_true, hH, hhs, hsc2,
                    Bool.false_eq_true, if_false, runCompensations,
                    List.reverse_singleton, hciF, List.singleton_append,
                    List.cons_append, List.nil_append, List.append_assoc,
                    List.append_nil]
                · refine Or.inr ⟨ci, rfl, ?_⟩
                  unfold travel_booking_saga
                  rw [hdg]
                  simp only [hF, hfs, isStr_self, if_true, hH, hhs, hsc2,
                    Bool.false_eq_true, if_false, runCompensations,
                    List.reverse_singleton, hciF, List.singleton_append,
                    List.cons_append, List.nil_append, List.append_assoc,
                    List.append_nil]
        · simp only [Bool.not_eq_true] at hsc
          refine Or.inr (Or.inr (Or.inl ⟨fv, fst, rfl, hfs, hsc, ?_⟩))
          unfold travel_booking_saga
          rw [hdg]
          simp only [hF, hfs, hsc, Bool.false_eq_true, if_false]

/-- shape of a per-service saga run whose result has status "success": both
activities succeeded, the returned value packages booking and payment, and
exactly the two activity calls were executed. -/
lemma flight_saga_success (env : ServiceEnv) (input v : JVal)
    (h : (flight_booking_saga env input).result = .ok v)
    (hs : v.get? "status" = some (.str "success")) :
    ∃ destination booking payment,
      input.get? "destination" = some destination ∧
      book_flight_activity env.book (.obj [("destination", destination),
        ("travel_date", (input.get? "travel_date").getD .null)]) = .ok booking ∧
      process_flight_payment env.pay booking = .ok payment ∧
      v = .obj [("status", .str "success"), ("service", .str "flight"),
                ("booking", booking), ("payment", payment)] ∧
      v.get? "booking" = some booking ∧ v.get? "payment" = some payment ∧
      flight_booking_saga env input =
        { result := .ok v,
          sched := [⟨"book_flight_activity", .obj [("destination", destination),
              ("travel_date", (input.get? "travel_date").getD .null)]⟩,
            ⟨"process_flight_payment", booking⟩],
          acts := [⟨"book_flight_activity", .obj [("destination", destination),
              ("travel_date", (input.get? "travel_date").getD .null)]⟩,
            ⟨"process_flight_payment", booking⟩] } := by
  rcases hdg : input.get? "destination" with _ | destination
  · have hrun : flight_booking_saga env input =
        { result := .error "KeyError: destination", sched := [], acts := [] } := by
      unfold flight_booking_saga
      rw [hdg]
    rw [hrun] at h
    exact absurd h (by simp)
  · rcases hb : book_flight_activity env.book (.obj [("destination", destination),
        ("travel_date", (input.get? "travel_date").getD .null)]) with e | booking
    · have hrun : (flight_booking_saga env input).result =
          .ok (.obj [("status", .str "failed"), ("service", .str "flight"),
            ("error", .str e), ("compensated", .bool false)]) := by
        unfold flight_booking_saga
        rw [hdg]
        simp only [hb]
      rw [hrun] at h
      injection h with h
      subst h
      simp [JVal.get?, lookupField] at hs
    · rcases hp : process_flight_payment env.pay booking with e | payment
      · have hrun : (flight_booking_saga env input).result =
            .ok (.obj [("status", .str "failed"), ("service", .str "flight"),
              ("error", .str ("Payment failed: " ++ e)),
              ("compensated", .bool true)]) := by
          unfold flight_booking_saga
          rw [hdg]
          simp only [hb, hp]
        rw [hrun] at h
        injection h with h
        subst h
        simp [JVal.get?, lookupField] at hs
      · have hrun : flight_booking_saga env input =
            { result := .ok (.obj [("status", .str "success"),
                ("service", .str "flight"), ("booking", booking),
                ("payment", payment)]),
              sched := [⟨"book_flight_activity", .obj [("destination", destination),
                  ("travel_date", (input.get? "travel_date").getD .null)]⟩,
                ⟨"process_flight_payment", booking⟩],
              acts := [⟨"book_flight_activity", .obj [("destination", destination),
                  ("travel_date", (input.get? "travel_date").getD .null)]⟩,
                ⟨"process_flight_payment", booking⟩] } := by
          unfold flight_booking_saga
          rw [hdg]
          simp only [hb, hp]
        have hv : v = .obj [("status", .str "success"), ("service", .str "flight"),
            ("booking", booking), ("payment", payment)] := by
          rw [hrun] at h
          injection h with h
          exact h.symm
        subst hv
        exact ⟨destination, booking, payment, rfl, hb, hp, rfl,
          by simp [JVal.get?, lookupField], by simp [JVal.get?, lookupField],
          by rw [hrun]⟩

/-- shape of a per-service saga run whose result has status "success": both
activities succeeded, the returned value packages booking and payment, and
exactly the two activity calls were executed. -/
lemma hotel_saga_success (env : ServiceEnv) (input v : JVal)
    (h : (hotel_booking_saga env input).result = .ok v)
    (hs : v.get? "status" = some (.str "success")) :
    ∃ destination booking payment,
      input.get? "destination" = some destination ∧
      book_hotel_activity env.book (.obj [("destination", destination),
        ("nights", input.getD "nights" (.num 3)),
        ("check_in", (input.get? "check_in").getD .null)]) = .ok booking ∧
      process_hotel_payment env.pay booking = .ok payment ∧
      v = .obj [("status", .str "success"), ("service", .str "hotel"),
                ("booking", booking), ("payment", payment)] ∧
      v.get? "booking" = some booking ∧ v.get? "payment" = some payment ∧
      hotel_booking_saga env input =
        { result := .ok v,
          sched := [⟨"book_hotel_activity", .obj [("destination", destination),
              ("nights", input.getD "nights" (.num 3)),
              ("check_in", (input.get? "check_in").getD .null)]⟩,
            ⟨"process_hotel_payment", booking⟩],
          acts := [⟨"book_hotel_activity", .obj [("destination", destination),
              ("nights", input.getD "nights" (.num 3)),
              ("check_in", (input.get? "check_in").getD .null)]⟩,
            ⟨"process_hotel_payment", booking⟩] } := by
  rcases hdg : input.get? "destination" with _ | destination
  · have hrun : hotel_booking_saga env input =
        { result := .error "KeyError: destination", sched := [], acts := [] } := by
      unfold hotel_booking_saga
      rw [hdg]
    rw [hrun] at h
    exact absurd h (by simp)
  · rcases hb : book_hotel_activity env.book (.obj [("destination", destination),
        ("nights", input.getD "nights" (.num 3)),
        ("check_in", (input.get? "check_in").getD .null)]) with e | booking
    · have hrun : (hotel_booking_saga env input).result =
          .ok (.obj [("status", .str "failed"), ("service", .str "hotel"),
            ("error", .str e), ("compensated", .bool false)]) := by
        unfold hotel_booking_saga
        rw [hdg]
        simp only [hb]
      rw [hrun] at h
      injection h with h
      subst h
      simp [JVal.get?, lookupField] at hs
    · rcases hp : process_hotel_payment env.pay booking with e | payment
      · have hrun : (hotel_booking_saga env input).result =
            .ok (.obj [("status", .str "failed"), ("service", .str "hotel"),
              ("error", .str ("Payment failed: " ++ e)),
              ("compensated", .bool true)]) := by
          unfold hotel_booking_saga
          rw [hdg]
          simp only [hb, hp]
        rw [hrun] at h
        injection h with h
        subst h
        simp [JVal.get?, lookupField] at hs
      · have hrun : hotel_booking_saga env input =
            { result := .ok (.obj [("status", .str "success"),
                ("service", .str "hotel"), ("booking", booking),
                ("payment", payment)]),
              sched := [⟨"book_hotel_activity", .obj [("destination", destination),
                  ("nights", input.getD "nights" (.num 3)),
                  ("check_in", (input.get? "check_in").getD .null)]⟩,
                ⟨"process_hotel_payment", booking⟩],
              acts := [⟨"book_hotel_activity", .obj [("destination", destination),
                  ("nights", input.getD "nights" (.num 3)),
                  ("check_in", (input.get? "check_in").getD .null)]⟩,
                ⟨"process_hotel_payment", booking⟩] } := by
          unfold hotel_booking_saga
          rw [hdg]
          simp only [hb, hp]
        have hv : v = .obj [("status", .str "success"), ("service", .str "hotel"),
            ("booking", booking), ("payment", payment)] := by
          rw [hrun] at h
          injection h with h
          exact h.symm
        subst hv
        exact ⟨destination, booking, payment, rfl, hb, hp, rfl,
          by simp [JVal.get?, lookupField], by simp [JVal.get?, lookupField],
          by rw [hrun]⟩

/-- shape of a per-service saga run whose result has status "success": both
activities succeeded, the returned value packages booking and payment, and
exactly the two activity calls were executed. -/
lemma car_saga_success (env : ServiceEnv) (input v : JVal)
    (h : (car_hire_booking_saga env input).result = .ok v)
    (hs : v.get? "status" = some (.str "success")) :
    ∃ destination booking payment,
      input.get? "destination" = some destination ∧
      book_car_activity env.book (.obj [("destination", destination),
        ("days", input.getD "days" (.num 3))]) = .ok booking ∧
      process_car_payment env.pay booking = .ok payment ∧
      v = .obj [("status", .str "success"), ("service", .str "car"),
                ("booking", booking), ("payment", payment)] ∧
      v.get? "booking" = some booking ∧ v.get? "payment" = some payment ∧
      car_hire_booking_saga env input =
        { result := .ok v,
          sched := [⟨"book_car_activity", .obj [("destination", destination),
              ("days", input.getD "days" (.num 3))]⟩,
            ⟨"process_car_payment", booking⟩],
          acts := [⟨"book_car_activity", .obj [("destination", destination),
              ("days", input.getD "days" (.num 3))]⟩,
            ⟨"process_car_payment", booking⟩] } := by
  rcases hdg : input.get? "destination" with _ | destination
  · have hrun : car_hire_booking_saga env input =
        { result := .error "KeyError: destination", sched := [], acts := [] } := by
      unfold car_hire_booking_saga
      rw [hdg]
    rw [hrun] at h
    exact absurd h (by simp)
  · rcases hb : book_car_activity env.book (.obj [("destination", destination),
        ("days", input.getD "days" (.num 3))]) with e | booking
    · have hrun : (car_hire_booking_saga env input).result =
          .ok (.obj [("status", .str "failed"), ("service", .str "car"),
            ("error", .str e), ("compensated", .bool false)]) := by
        unfold car_hire_booking_saga
        rw [hdg]
        simp only [hb]
      rw [hrun] at h
      injection h with h
      subst h
      simp [JVal.get?, lookupField] at hs
    · rcases hp : process_car_payment env.pay booking with e | payment
      · have hrun : (car_hire_booking_saga env input).result =
            .ok (.obj [("status", .str "failed"), ("service", .str "car"),
              ("error", .str ("Payment failed: " ++ e)),
              ("compensated", .bool true)]) := by
          unfold car_hire_booking_saga
          rw [hdg]
          simp only [hb, hp]
        rw [hrun] at h
        injection h with h
        subst h
        simp [JVal.get?, lookupField] at hs
      · have hrun : car_hire_booking_saga env input =
            { result := .ok (.obj [("status", .str "success"),
                ("service", .str "car"), ("booking", booking),
                ("payment", payment)]),
              sched := [⟨"book_car_activity", .obj [("destination", destination),
                  ("days", input.getD "days" (.num 3))]⟩,
                ⟨"process_car_payment", booking⟩],
              acts := [⟨"book_car_activity", .obj [("destination", destination),
                  ("days", input.getD "days" (.num 3))]⟩,
                ⟨"process_car_payment", booking⟩] } := by
          unfold car_hire_booking_saga
          rw [hdg]
          simp only [hb, hp]
        have hv : v = .obj [("status", .str "success"), ("service", .str "car"),
            ("booking", booking), ("payment", payment)] := by
          rw [hrun] at h
          injection h with h
          exact h.symm
        subst hv
        exact ⟨destination, booking, payment, rfl, hb, hp, rfl,
          by simp [JVal.get?, lookupField], by simp [JVal.get?, lookupField],
          by rw [hrun]⟩

/-- possible activity traces of one flight saga run: nothing (fault before
any yield), booking only, booking and payment, or booking, payment and the
single compensation. -/
lemma flight_saga_acts (env : ServiceEnv) (input : JVal) :
    (flight_booking_saga env input).acts = [] ∨
    (∃ x, (flight_booking_saga env input).acts = [⟨"book_flight_activity", x⟩]) ∨
    (∃ x y, (flight_booking_saga env input).acts =
      [⟨"book_flight_activity", x⟩, ⟨"process_flight_payment", y⟩]) ∨
    (∃ x y, (flight_booking_saga env input).acts =
      [⟨"book_flight_activity", x⟩, ⟨"process_flight_payment", y⟩,
       ⟨"cancel_flight_activity", y⟩]) := by
  unfold flight_booking_saga
  rcases hdg : input.get? "destination" with _ | destination
  · left
    rfl
  · rcases hb : book_flight_activity env.book (.obj [("destination", destination),
        ("travel_date", (input.get? "travel_date").getD .null)]) with e | booking
      <;> simp only [hb]
    · right
      left
      exact ⟨_, rfl⟩
    · rcases hp : process_flight_payment env.pay booking with e | payment
        <;> simp only [hp]
      · right
        right
        right
        exact ⟨_, _, rfl⟩
      · right
        right
        left
        exact ⟨_, _, rfl⟩

/-- possible activity traces of one hotel saga run: nothing (fault before
any yield), booking only, booking and payment, or booking, payment and the
single compensation. -/
lemma hotel_saga_acts (env : ServiceEnv) (input : JVal) :
    (hotel_booking_saga env input).acts = [] ∨
    (∃ x, (hotel_booking_saga env input).acts = [⟨"book_hotel_activity", x⟩]) ∨
    (∃ x y, (hotel_booking_saga env input).acts =
      [⟨"book_hotel_activity", x⟩, ⟨"process_hotel_payment", y⟩]) ∨
    (∃ x y, (hotel_booking_saga env input).acts =
      [⟨"book_hotel_activity", x⟩, ⟨"process_hotel_payment", y⟩,
       ⟨"cancel_hotel_activity", y⟩]) := by
  unfold hotel_booking_saga
  rcases hdg : input.get? "destination" with _ | destination
  · left
    rfl
  · rcases hb : book_hotel_activity env.book (.obj [("destination", destination),
        ("nights", input.getD "nights" (.num 3)),
        ("check_in", (input.get? "check_in").getD .null)]) with e | booking
      <;> simp only [hb]
    · right
      left
      exact ⟨_, rfl⟩
    · rcases hp : process_hotel_payment env.pay booking with e | payment
        <;> simp only [hp]
      · right
        right
        right
        exact ⟨_, _, rfl⟩
      · right
        right
        left
        exact ⟨_, _, rfl⟩

/-- possible activity traces of one car saga run: nothing (fault before
any yield), booking only, booking and payment, or booking, payment and the
single compensation. -/
lemma car_saga_acts (env : ServiceEnv) (input : JVal) :
    (car_hire_booking_saga env input).acts = [] ∨
    (∃ x, (car_hire_booking_saga env input).acts = [⟨"book_car_activity", x⟩]) ∨
    (∃ x y, (car_hire_booking_saga env input).acts =
      [⟨"book_car_activity", x⟩, ⟨"process_car_payment", y⟩]) ∨
    (∃ x y, (car_hire_booking_saga env input).acts =
      [⟨"book_car_activity", x⟩, ⟨"process_car_payment", y⟩,
       ⟨"cancel_car_activity", y⟩]) := by
  unfold car_hire_booking_saga
  rcases hdg : input.get? "destination" with _ | destination
  · left
    rfl
  · rcases hb : book_car_activity env.book (.obj [("destination", destination),
        ("days", input.getD "days" (.num 3))]) with e | booking
      <;> simp only [hb]
    · right
      left
      exact ⟨_, rfl⟩
    · rcases hp : process_car_payment env.pay booking with e | payment
        <;> simp only [hp]
      · right
        right
        right
        exact ⟨_, _, rfl⟩
      · right
        right
        left
        exact ⟨_, _, rfl⟩

/-- the flight saga run never executes its compensation twice, and never
executes a foreign compensation at all. -/
lemma flight_saga_cancel_counts (env : ServiceEnv) (input : JVal) :
    actCount "cancel_flight_activity" (flight_booking_saga env input).acts ≤ 1 ∧
    actCount "cancel_hotel_activity" (flight_booking_saga env input).acts = 0 ∧
    actCount "cancel_car_activity" (flight_booking_saga env input).acts = 0 := by
  rcases flight_saga_acts env input with h | ⟨x, h⟩ | ⟨x, y, h⟩ | ⟨x, y, h⟩ <;>
    rw [h] <;> simp [actCount, List.filter]

lemma hotel_saga_cancel_counts (env : ServiceEnv) (input : JVal) :
    actCount "cancel_hotel_activity" (hotel_booking_saga env input).acts ≤ 1 ∧
    actCount "cancel_flight_activity" (hotel_booking_saga env input).acts = 0 ∧
    actCount "cancel_car_activity" (hotel_booking_saga env input).acts = 0 := by
  rcases hotel_saga_acts env input with h | ⟨x, h⟩ | ⟨x, y, h⟩ | ⟨x, y, h⟩ <;>
    rw [h] <;> simp [actCount, List.filter]

lemma car_saga_cancel_counts (env : ServiceEnv) (input : JVal) :
    actCount "cancel_car_activity" (car_hire_booking_saga env input).acts ≤ 1 ∧
    actCount "cancel_flight_activity" (car_hire_booking_saga env input).acts = 0 ∧
    actCount "cancel_hotel_activity" (car_hire_booking_saga env input).acts = 0 := by
  rcases car_saga_acts env input with h | ⟨x, h⟩ | ⟨x, y, h⟩ | ⟨x, y, h⟩ <;>
    rw [h] <;> simp [actCount, List.filter]

/-- full run of the flight saga when booking succeeds and payment fails:
one compensation with the booking as input, then a compensated failure. -/
lemma flight_saga_payfail (env : ServiceEnv) (input destination booking : JVal) (e : String)
    (hdg : input.get? "destination" = some destination)
    (hb : book_flight_activity env.book (.obj [("destination", destination),
      ("travel_date", (input.get? "travel_date").getD .null)]) = .ok booking)
    (hp : process_flight_payment env.pay booking = .error e) :
    flight_booking_saga env input =
      { result := .ok (.obj [("status", .str "failed"), ("service", .str "flight"),
          ("error", .str ("Payment failed: " ++ e)), ("compensated", .bool true)]),
        sched := [⟨"book_flight_activity", .obj [("destination", destination),
            ("travel_date", (input.get? "travel_date").getD .null)]⟩,
          ⟨"process_flight_payment", booking⟩,
          ⟨"cancel_flight_activity", booking⟩],
        acts := [⟨"book_flight_activity", .obj [("destination", destination),
            ("travel_date", (input.get? "travel_date").getD .null)]⟩,
          ⟨"process_flight_payment", booking⟩,
          ⟨"cancel_flight_activity", booking⟩] } := by
  unfold flight_booking_saga
  rw [hdg]
  simp only [hb, hp]

/-- full run of the flight saga when the booking activity itself fails: an
uncompensated failure after the single booking call. -/
lemma flight_saga_bookfail (env : ServiceEnv) (input destination : JVal) (e : String)
    (hdg : input.get? "destination" = some destination)
    (hb : book_flight_activity env.book (.obj [("destination", destination),
      ("travel_date", (input.get? "travel_date").getD .null)]) = .error e) :
    flight_booking_saga env input =
      { result := .ok (.obj [("status", .str "failed"), ("service", .str "flight"),
          ("error", .str e), ("compensated", .bool false)]),
        sched := [⟨"book_flight_activity", .obj [("destination", destination),
            ("travel_date", (input.get? "travel_date").getD .null)]⟩],
        acts := [⟨"book_flight_activity", .obj [("destination", destination),
            ("travel_date", (input.get? "travel_date").getD .null)]⟩] } := by
  unfold flight_booking_saga
  rw [hdg]
  simp only [hb]

/-- full run of the hotel saga when booking succeeds and payment fails:
one compensation with the booking as input, then a compensated failure. -/
lemma hotel_saga_payfail (env : ServiceEnv) (input destination booking : JVal) (e : String)
    (hdg : input.get? "destination" = some destination)
    (hb : book_hotel_activity env.book (.obj [("destination", destination),
      ("nights", input.getD "nights" (.num 3)),
      ("check_in", (input.get? "check_in").getD .null)]) = .ok booking)
    (hp : process_hotel_payment env.pay booking = .error e) :
    hotel_booking_saga env input =
      { result := .ok (.obj [("status", .str "failed"), ("service", .str "hotel"),
          ("error", .str ("Payment failed: " ++ e)), ("compensated", .bool true)]),
        sched := [⟨"book_hotel_activity", .obj [("destination", destination),
            ("nights", input.getD "nights" (.num 3)),
      ("check_in", (input.get? "check_in").getD .null)]⟩,
          ⟨"process_hotel_payment", booking⟩,
          ⟨"cancel_hotel_activity", booking⟩],
        acts := [⟨"book_hotel_activity", .obj [("destination", destination),
            ("nights", input.getD "nights" (.num 3)),
      ("check_in", (input.get? "check_in").getD .null)]⟩,
          ⟨"process_hotel_payment", booking⟩,
          ⟨"cancel_hotel_activity", booking⟩] } := by
  unfold hotel_booking_saga
  rw [hdg]
  simp only [hb, hp]

/-- full run of the hotel saga when the booking activity itself fails: an
uncompensated failure after the single booking call. -/
lemma hotel_saga_bookfail (env : ServiceEnv) (input destination : JVal) (e : String)
    (hdg : input.get? "destination" = some destination)
    (hb : book_hotel_activity env.book (.obj [("destination", destination),
      ("nights", input.getD "nights" (.num 3)),
      ("check_in", (input.get? "check_in").getD .null)]) = .error e) :
    hotel_booking_saga env input =
      { result := .ok (.obj [("status", .str "failed"), ("service", .str "hotel"),
          ("error", .str e), ("compensated", .bool false)]),
        sched := [⟨"book_hotel_activity", .obj [("destination", destination),
            ("nights", input.getD "nights" (.num 3)),
      ("check_in", (input.get? "check_in").getD .null)]⟩],
        acts := [⟨"book_hotel_activity", .obj [("destination", destination),
            ("nights", input.getD "nights" (.num 3)),
      ("check_in", (input.get? "check_in").getD .null)]⟩] } := by
  unfold hotel_booking_saga
  rw [hdg]
  simp only [hb]

/-- full run of the car saga when booking succeeds and payment fails:
one compensation with the booking as input, then a compensated failure. -/
lemma car_saga_payfail (env : ServiceEnv) (input destination booking : JVal) (e : String)
    (hdg : input.get? "destination" = some destination)
    (hb : book_car_activity env.book (.obj [("destination", destination),
      ("days", input.getD "days" (.num 3))]) = .ok booking)
    (hp : process_car_payment env.pay booking = .error e) :
    car_hire_booking_saga env input =
      { result := .ok (.obj [("status", .str "failed"), ("service", .str "car"),
          ("error", .str ("Payment failed: " ++ e)), ("compensated", .bool true)]),
        sched := [⟨"book_car_activity", .obj [("destination", destination),
            ("days", input.getD "days" (.num 3))]⟩,
          ⟨"process_car_payment", booking⟩,
          ⟨"cancel_car_activity", booking⟩],
        acts := [⟨"book_car_activity", .obj [("destination", destination),
            ("days", input.getD "days" (.num 3))]⟩,
          ⟨"process_car_payment", booking⟩,
          ⟨"cancel_car_activity", booking⟩] } := by
  unfold car_hire_booking_saga
  rw [hdg]
  simp only [hb, hp]

/-- full run of the car saga when the booking activity itself fails: an
uncompensated failure after the single booking call. -/
lemma car_saga_bookfail (env : ServiceEnv) (input destination : JVal) (e : String)
    (hdg : input.get? "destination" = some destination)
    (hb : book_car_activity env.book (.obj [("destination", destination),
      ("days", input.getD "days" (.num 3))]) = .error e) :
    car_hire_booking_saga env input =
      { result := .ok (.obj [("status", .str "failed"), ("service", .str "car"),
          ("error", .str e), ("compensated", .bool false)]),
        sched := [⟨"book_car_activity", .obj [("destination", destination),
            ("days", input.getD "days" (.num 3))]⟩],
        acts := [⟨"book_car_activity", .obj [("destination", destination),
            ("days", input.getD "days" (.num 3))]⟩] } := by
  unfold car_hire_booking_saga
  rw [hdg]
  simp only [hb]

/-- C8: for every call of the schedule-and-wait operation in which waiting
for completion times out (the wait returns no terminal state within the
timeout), the operation returns a distinguishable still-running JSON object
whose status field is "timeout" and which contains the instance id, rather
than a terminal state. -/
theorem c8_run_saga_timeout (instance_id : String)
    (jsonLoads : String → Option JVal) (timeout : Int) :
    ∃ out, run_saga instance_id none jsonLoads timeout = .ok out ∧
      out.get? "status" = some (.str "timeout") ∧
      out.get? "instance_id" = some (.str instance_id) ∧
      out = .obj [("status", .str "timeout"),
        ("instance_id", .str instance_id),
        ("message", .str ("Orchestration did not complete within "
          ++ toString timeout ++ "s. Check status at /api/travel-status/"
          ++ instance_id))] := by
  refine ⟨_, rfl, ?_, ?_, rfl⟩ <;> simp [JVal.get?, lookupField]

/-- C9: every cancellation activity is total over arbitrary dict inputs and
never raises, returning cancelled true, the booking_ref defaulting to
"unknown", the refunded payment or none, and its service name; consequently
every compensation result recorded by the composite saga reports
cancelled true (a CompensationFailure is unreachable). -/
theorem c9_cancellations_total :
    (∀ fs, cancel_flight_activity (.obj fs) =
      .obj [("cancelled", .bool true),
        ("booking_ref", (JVal.obj fs).getD "confirmation" (.str "unknown")),
        ("refunded_payment", ((JVal.obj fs).get? "payment_ref").getD .null),
        ("service", .str "flight")]) ∧
    (∀ fs, cancel_hotel_activity (.obj fs) =
      .obj [("cancelled", .bool true),
        ("booking_ref", (JVal.obj fs).getD "confirmation" (.str "unknown")),
        ("refunded_payment", ((JVal.obj fs).get? "payment_ref").getD .null),
        ("service", .str "hotel")]) ∧
    (∀ fs, cancel_car_activity (.obj fs) =
      .obj [("cancelled", .bool true),
        ("booking_ref", (JVal.obj fs).getD "confirmation" (.str "unknown")),
        ("refunded_payment", ((JVal.obj fs).get? "payment_ref").getD .null),
        ("service", .str "car")]) ∧
    (∀ env input out comps, (travel_booking_saga env input).result = .ok out →
      out.get? "compensations" = some (.arr comps) →
      ∀ c ∈ comps, c.get? "cancelled" = some (.bool true)) := by
  refine ⟨fun fs => rfl, fun fs => rfl, fun fs => rfl, ?_⟩
  intro env input out comps hres hcomp c hc
  rcases travel_cases env input with ⟨hdg, hrun⟩ |
    ⟨destination, fRun, hRun, cRun, fc, hcall, ccall, hdg, hfr, hhr, hcr, hfc, hhc, hcc,
      B⟩
  · rw [hrun] at hres
    exact absurd hres (by simp)
  · rcases B with ⟨e, _, hrun⟩ | ⟨fv, _, _, hrun⟩ | ⟨fv, fst, _, _, _, hrun⟩ |
      ⟨fv, _, _, B⟩
    · rw [hrun] at hres
      exact absurd hres (by simp)
    · rw [hrun] at hres
      exact absurd hres (by simp)
    · rw [hrun] at hres
      injection hres with hres
      subst hres
      simp [JVal.get?, lookupField] at hcomp
      subst hcomp
      exact absurd hc (by simp)
    · rcases B with ⟨e, _, hrun⟩ | ⟨hv, _, _, hrun⟩ |
        ⟨hv, hst, _, _, _, ⟨_, hrun⟩ | ⟨ci, _, hrun⟩⟩ | ⟨hv, _, _, B⟩
      · rw [hrun] at hres
        exact absurd hres (by simp)
      · rw [hrun] at hres
        exact absurd hres (by simp)
      · rw [hrun] at hres
        exact absurd hres (by simp)
      · rw [hrun] at hres
        injection hres with hres
        subst hres
        simp [JVal.get?, lookupField] at hcomp
        subst hcomp
        simp only [List.mem_singleton] at hc
        subst hc
        simp [cancel_flight_activity, JVal.get?, lookupField]
      · rcases B with ⟨e, _, hrun⟩ | ⟨cv, _, _, hrun⟩ |
          ⟨cv, cst, _, _, _, ⟨_, hrun⟩ | ⟨ciH, _, _, hrun⟩ | ⟨ciH, ciF, _, _, hrun⟩⟩ |
          ⟨cv, _, _, hrun⟩
        · rw [hrun] at hres
          exact absurd hres (by simp)
        · rw [hrun] at hres
          exact absurd hres (by simp)
        · rw [hrun] at hres
          exact absurd hres (by simp)
        · rw [hrun] at hres
          exact absurd hres (by simp)
        · rw [hrun] at hres
          injection hres with hres
          subst hres
          simp [JVal.get?, lookupField] at hcomp
          subst hcomp
          simp only [List.mem_cons, List.mem_singleton, List.not_mem_nil, or_false] at hc
          rcases hc with hc | hc <;> subst hc
          · simp [cancel_hotel_activity, JVal.get?, lookupField]
          · simp [cancel_flight_activity, JVal.get?, lookupField]
        · rw [hrun] at hres
          injection hres with hres
          subst hres
          simp [JVal.get?, lookupField] at hcomp

/-- C4: in every per-service saga run where the booking activity succeeds
and the payment activity fails, exactly one cancellation is scheduled, its
input is the booking result (which carries the booking confirmation id and,
whenever the parsed agent reply does not smuggle one in, no payment
reference), and the saga returns status failed with compensated true and an
error describing the payment failure. -/
theorem c4_payment_failure_compensates :
    (∀ (env : ServiceEnv) (input destination booking : JVal) (e : String),
      input.get? "destination" = some destination →
      book_flight_activity env.book (.obj [("destination", destination),
        ("travel_date", (input.get? "travel_date").getD .null)]) = .ok booking →
      process_flight_payment env.pay booking = .error e →
      (flight_booking_saga env input).result =
        .ok (.obj [("status", .str "failed"), ("service", .str "flight"),
          ("error", .str ("Payment failed: " ++ e)), ("compensated", .bool true)]) ∧
      (flight_booking_saga env input).acts =
        [⟨"book_flight_activity", .obj [("destination", destination),
            ("travel_date", (input.get? "travel_date").getD .null)]⟩,
         ⟨"process_flight_payment", booking⟩,
         ⟨"cancel_flight_activity", booking⟩] ∧
      actCount "cancel_flight_activity" (flight_booking_saga env input).acts = 1 ∧
      booking.get? "confirmation" = some (.str env.book.refId) ∧
      ((∀ fs, env.book.parsed = some (.obj fs) →
          lookupField fs "payment_ref" = none) →
        booking.get? "payment_ref" = none)) ∧
    (∀ (env : ServiceEnv) (input destination booking : JVal) (e : String),
      input.get? "destination" = some destination →
      book_hotel_activity env.book (.obj [("destination", destination),
        ("nights", input.getD "nights" (.num 3)),
        ("check_in", (input.get? "check_in").getD .null)]) = .ok booking →
      process_hotel_payment env.pay booking = .error e →
      (hotel_booking_saga env input).result =
        .ok (.obj [("status", .str "failed"), ("service", .str "hotel"),
          ("error", .str ("Payment failed: " ++ e)), ("compensated", .bool true)]) ∧
      (hotel_booking_saga env input).acts =
        [⟨"book_hotel_activity", .obj [("destination", destination),
            ("nights", input.getD "nights" (.num 3)),
            ("check_in", (input.get? "check_in").getD .null)]⟩,
         ⟨"process_hotel_payment", booking⟩,
         ⟨"cancel_hotel_activity", booking⟩] ∧
      actCount "cancel_hotel_activity" (hotel_booking_saga env input).acts = 1 ∧
      booking.get? "confirmation" = some (.str env.book.refId) ∧
      ((∀ fs, env.book.parsed = some (.obj fs) →
          lookupField fs "payment_ref" = none) →
        booking.get? "payment_ref" = none)) ∧
    (∀ (env : ServiceEnv) (input destination booking : JVal) (e : String),
      input.get? "destination" = some destination →
      book_car_activity env.book (.obj [("destination", destination),
        ("days", input.getD "days" (.num 3))]) = .ok booking →
      process_car_payment env.pay booking = .error e →
      (car_hire_booking_saga env input).result =
        .ok (.obj [("status", .str "failed"), ("service", .str "car"),
          ("error", .str ("Payment failed: " ++ e)), ("compensated", .bool true)]) ∧
      (car_hire_booking_saga env input).acts =
        [⟨"book_car_activity", .obj [("destination", destination),
            ("days", input.getD "days" (.num 3))]⟩,
         ⟨"process_car_payment", booking⟩,
         ⟨"cancel_car_activity", booking⟩] ∧
      actCount "cancel_car_activity" (car_hire_booking_saga env input).acts = 1 ∧
      booking.get? "confirmation" = some (.str env.book.refId) ∧
      ((∀ fs, env.book.parsed = some (.obj fs) →
          lookupField fs "payment_ref" = none) →
        booking.get? "payment_ref" = none)) := by
  refine ⟨?_, ?_, ?_⟩
  · intro env input destination booking e hdg hb hp
    have hrun := flight_saga_payfail env input destination booking e hdg hb hp
    rw [hrun]
    refine ⟨rfl, rfl, by simp [actCount, List.filter],
      (book_flight_activity_ok _ _ _ hb).2, fun hnp =>
      book_flight_activity_ok_no_payref _ _ _ hnp hb⟩
  · intro env input destination booking e hdg hb hp
    have hrun := hotel_saga_payfail env input destination booking e hdg hb hp
    rw [hrun]
    refine ⟨rfl, rfl, by simp [actCount, List.filter],
      (book_hotel_activity_ok _ _ _ hb).2, fun hnp =>
      book_hotel_activity_ok_no_payref _ _ _ hnp hb⟩
  · intro env input destination booking e hdg hb hp
    have hrun := car_saga_payfail env input destination booking e hdg hb hp
    rw [hrun]
    refine ⟨rfl, rfl, by simp [actCount, List.filter],
      (book_car_activity_ok _ _ _ hb).2, fun hnp =>
      book_car_activity_ok_no_payref _ _ _ hnp hb⟩

/-- C5: in every per-service saga run where the booking activity itself
fails, the saga returns a terminal failure with compensated false carrying
the error, and no cancellation activity is ever scheduled in that run. -/
theorem c5_booking_failure_terminal :
    (∀ (env : ServiceEnv) (input destination : JVal) (e : String),
      input.get? "destination" = some destination →
      book_flight_activity env.book (.obj [("destination", destination),
        ("travel_date", (input.get? "travel_date").getD .null)]) = .error e →
      (flight_booking_saga env input).result =
        .ok (.obj [("status", .str "failed"), ("service", .str "flight"),
          ("error", .str e), ("compensated", .bool false)]) ∧
      (flight_booking_saga env input).acts =
        [⟨"book_flight_activity", .obj [("destination", destination),
            ("travel_date", (input.get? "travel_date").getD .null)]⟩] ∧
      actCount "cancel_flight_activity" (flight_booking_saga env input).acts = 0 ∧
      actCount "cancel_hotel_activity" (flight_booking_saga env input).acts = 0 ∧
      actCount "cancel_car_activity" (flight_booking_saga env input).acts = 0) ∧
    (∀ (env : ServiceEnv) (input destination : JVal) (e : String),
      input.get? "destination" = some destination →
      book_hotel_activity env.book (.obj [("destination", destination),
        ("nights", input.getD "nights" (.num 3)),
        ("check_in", (input.get? "check_in").getD .null)]) = .error e →
      (hotel_booking_saga env input).result =
        .ok (.obj [("status", .str "failed"), ("service", .str "hotel"),
          ("error", .str e), ("compensated", .bool false)]) ∧
      (hotel_booking_saga env input).acts =
        [⟨"book_hotel_activity", .obj [("destination", destination),
            ("nights", input.getD "nights" (.num 3)),
            ("check_in", (input.get? "check_in").getD .null)]⟩] ∧
      actCount "cancel_flight_activity" (hotel_booking_saga env input).acts = 0 ∧
      actCount "cancel_hotel_activity" (hotel_booking_saga env input).acts = 0 ∧
      actCount "cancel_car_activity" (hotel_booking_saga env input).acts = 0) ∧
    (∀ (env : ServiceEnv) (input destination : JVal) (e : String),
      input.get? "destination" = some destination →
      book_car_activity env.book (.obj [("destination", destination),
        ("days", input.getD "days" (.num 3))]) = .error e →
      (car_hire_booking_saga env input).result =
        .ok (.obj [("status", .str "failed"), ("service", .str "car"),
          ("error", .str e), ("compensated", .bool false)]) ∧
      (car_hire_booking_saga env input).acts =
        [⟨"book_car_activity", .obj [("destination", destination),
            ("days", input.getD "days" (.num 3))]⟩] ∧
      actCount "cancel_flight_activity" (car_hire_booking_saga env input).acts = 0 ∧
      actCount "cancel_hotel_activity" (car_hire_booking_saga env input).acts = 0 ∧
      actCount "cancel_car_activity" (car_hire_booking_saga env input).acts = 0) := by
  refine ⟨?_, ?_, ?_⟩
  · intro env input destination e hdg hb
    have hrun := flight_saga_bookfail env input destination e hdg hb
    rw [hrun]
    exact ⟨rfl, rfl, by simp [actCount, List.filter], by simp [actCount, List.filter],
      by simp [actCount, List.filter]⟩
  · intro env input destination e hdg hb
    have hrun := hotel_saga_bookfail env input destination e hdg hb
    rw [hrun]
    exact ⟨rfl, rfl, by simp [actCount, List.filter], by simp [actCount, List.filter],
      by simp [actCount, List.filter]⟩
  · intro env input destination e hdg hb
    have hrun := car_saga_bookfail env input destination e hdg hb
    rw [hrun]
    exact ⟨rfl, rfl, by simp [actCount, List.filter], by simp [actCount, List.filter],
      by simp [actCount, List.filter]⟩

/-- C1: when the k-th composite step is the first to return a non-success
status, the composite saga issues exactly k minus 1 compensation calls, in
strict reverse order of original completion, each with the confirmation id
and payment reference of its step, and returns status failed with the
failing stage name, the error, and the compensation results in issue
order. -/
theorem c1_composite_compensation_order :
    (∀ (env : TravelEnv) (input destination td fv st : JVal),
      input.get? "destination" = some destination →
      (input.get? "travel_date").getD .null = td →
      (flight_booking_saga env.flight (travelFlightIn destination td)).result
        = .ok fv →
      fv.get? "status" = some st →
      st.isStr "success" = false →
      travel_booking_saga env input =
        { result := .ok (.obj [("status", .str "failed"),
            ("stage", .str "flight"),
            ("error", fv.getD "error" (.str "Flight booking failed")),
            ("compensations", .arr [])]),
          sched := [⟨"flight_booking_saga", travelFlightIn destination td⟩],
          acts := (flight_booking_saga env.flight
            (travelFlightIn destination td)).acts }) ∧
    (∀ (env : TravelEnv) (input destination td nights fv hv st ci : JVal),
      input.get? "destination" = some destination →
      (input.get? "travel_date").getD .null = td →
      input.getD "nights" (.num 3) = nights →
      (flight_booking_saga env.flight (travelFlightIn destination td)).result
        = .ok fv →
      fv.get? "status" = some (.str "success") →
      (hotel_booking_saga env.hotel (travelHotelIn destination nights td)).result
        = .ok hv →
      hv.get? "status" = some st →
      st.isStr "success" = false →
      compInputOf fv = some ci →
      travel_booking_saga env input =
        { result := .ok (.obj [("status", .str "failed"),
            ("stage", .str "hotel"),
            ("error", hv.getD "error" (.str "Hotel booking failed")),
            ("compensations", .arr [cancel_flight_activity ci])]),
          sched := [⟨"flight_booking_saga", travelFlightIn destination td⟩,
            ⟨"hotel_booking_saga", travelHotelIn destination nights td⟩,
            ⟨"cancel_flight_activity", ci⟩],
          acts := (flight_booking_saga env.flight
              (travelFlightIn destination td)).acts
            ++ (hotel_booking_saga env.hotel
              (travelHotelIn destination nights td)).acts
            ++ [⟨"cancel_flight_activity", ci⟩] }) ∧
    (∀ (env : TravelEnv) (input destination td nights fv hv cv st ciH ciF : JVal),
      input.get? "destination" = some destination →
      (input.get? "travel_date").getD .null = td →
      input.getD "nights" (.num 3) = nights →
      (flight_booking_saga env.flight (travelFlightIn destination td)).result
        = .ok fv →
      fv.get? "status" = some (.str "success") →
      (hotel_booking_saga env.hotel (travelHotelIn destination nights td)).result
        = .ok hv →
      hv.get? "status" = some (.str "success") →
      (car_hire_booking_saga env.car (travelCarIn destination nights)).result
        = .ok cv →
      cv.get? "status" = some st →
      st.isStr "success" = false →
      compInputOf hv = some ciH →
      compInputOf fv = some ciF →
      travel_booking_saga env input =
        { result := .ok (.obj [("status", .str "failed"),
            ("stage", .str "car"),
            ("error", cv.getD "error" (.str "Car hire booking failed")),
            ("compensations", .arr [cancel_hotel_activity ciH,
              cancel_flight_activity ciF])]),
          sched := [⟨"flight_booking_saga", travelFlightIn destination td⟩,
            ⟨"hotel_booking_saga", travelHotelIn destination nights td⟩,
            ⟨"car_hire_booking_saga", travelCarIn destination nights⟩,
            ⟨"cancel_hotel_activity", ciH⟩, ⟨"cancel_flight_activity", ciF⟩],
          acts := (flight_booking_saga env.flight
              (travelFlightIn destination td)).acts
            ++ (hotel_booking_saga env.hotel
              (travelHotelIn destination nights td)).acts
            ++ (car_hire_booking_saga env.car
              (travelCarIn destination nights)).acts
            ++ [⟨"cancel_hotel_activity", ciH⟩,
                ⟨"cancel_flight_activity", ciF⟩] }) := by
  refine ⟨?_, ?_, ?_⟩
  · intro env input destination td fv st hd htd hf hst hns
    unfold travel_booking_saga
    rw [hd]
    simp only [htd, hf, hst, hns, Bool.false_eq_true, if_false]
  · intro env input destination td nights fv hv st ci hd htd hn hf hfs hh hhs hns hci
    unfold travel_booking_saga
    rw [hd]
    simp only [htd, hn, hf, hfs, hh, hhs, hns, isStr_self, if_true,
      Bool.false_eq_true, if_false, List.reverse_singleton, runCompensations, hci,
      List.singleton_append, List.cons_append, List.nil_append, List.append_assoc]
  · intro env input destination td nights fv hv cv st ciH ciF hd htd hn hf hfs hh
      hhs hc hcs hns hciH hciF
    unfold travel_booking_saga
    rw [hd]
    simp only [htd, hn, hf, hfs, hh, hhs, hc, hcs, hns, isStr_self, if_true,
      Bool.false_eq_true, if_false, runCompensations, List.reverse_cons,
      List.reverse_singleton, List.reverse_nil, hciH, hciF, List.singleton_append,
      List.cons_append, List.nil_append, List.append_assoc, List.append_nil]

/-- outcome of the flight agent for a destination whose lowercase form is
"atlantis": it either raises or returns a reply whose success flag has been
forced to false. -/
lemma flight_agent_atlantis (env : AgentEnv) (s : String) (td : JVal)
    (hlow : pyLower s = "atlantis") :
    (∃ e, flight_agent_book env (.str s) td = .error e) ∨
    (∃ fs, flight_agent_book env (.str s) td =
      .ok (.obj (setField fs "success" (.bool false)))) := by
  unfold flight_agent_book
  simp only [hlow, beq_self_eq_true, Bool.true_or, if_true]
  rcases env.parsed with _ | v
  · exact Or.inr ⟨_, rfl⟩
  · cases v
    case obj fs => exact Or.inr ⟨fs, rfl⟩
    all_goals exact Or.inl ⟨_, rfl⟩

/-- whenever the flight agent returns at all for such a destination, the
returned reply has success equal to false. -/
lemma flight_agent_atlantis_success_false (env : AgentEnv) (s : String)
    (td r : JVal) (hlow : pyLower s = "atlantis")
    (h : flight_agent_book env (.str s) td = .ok r) :
    r.get? "success" = some (.bool false) := by
  rcases flight_agent_atlantis env s td hlow with ⟨e, ha⟩ | ⟨fs, ha⟩
  · rw [ha] at h
    exact absurd h (by simp)
  · rw [ha] at h
    injection h with h
    subst h
    exact lookupField_setField_self _ _ _

/-- the flight booking activity always raises for such a destination. -/
lemma book_flight_atlantis (env : AgentEnv) (s : String) (input : JVal)
    (hlow : pyLower s = "atlantis")
    (hdg : input.get? "destination" = some (.str s)) :
    ∃ e, book_flight_activity env input = .error e := by
  unfold book_flight_activity
  rw [hdg]
  simp only []
  rcases flight_agent_atlantis env s ((input.get? "travel_date").getD .null) hlow
    with ⟨e, ha⟩ | ⟨fs, ha⟩
  · rw [ha]
    exact ⟨e, rfl⟩
  · rw [ha]
    have hl : lookupField (setField fs "success" (.bool false)) "success"
        = some (.bool false) := lookupField_setField_self _ _ _
    simp [JVal.getD, JVal.get?, hl, JVal.truthy]

/-- C7: for every composite run whose destination lowercases to "atlantis",
the flight booking activity raises (the agent, whenever it returns, reports
success false), the flight sub-saga returns status failed with compensated
false after its single booking call, and the composite returns status
failed at stage flight with an empty compensations list. -/
theorem c7_atlantis_fails_flight_stage (env : TravelEnv) (input td : JVal)
    (s : String)
    (hd : input.get? "destination" = some (.str s))
    (hlow : pyLower s = "atlantis")
    (htd : (input.get? "travel_date").getD .null = td) :
    (∀ d r, flight_agent_book env.flight.book (.str s) d = .ok r →
      r.get? "success" = some (.bool false)) ∧
    ∃ e, book_flight_activity env.flight.book (travelFlightIn (.str s) td)
        = .error e ∧
      flight_booking_saga env.flight (travelFlightIn (.str s) td) =
        { result := .ok (.obj [("status", .str "failed"),
            ("service", .str "flight"), ("error", .str e),
            ("compensated", .bool false)]),
          sched := [⟨"book_flight_activity", travelFlightIn (.str s) td⟩],
          acts := [⟨"book_flight_activity", travelFlightIn (.str s) td⟩] } ∧
      travel_booking_saga env input =
        { result := .ok (.obj [("status", .str "failed"),
            ("stage", .str "flight"), ("error", .str e),
            ("compensations", .arr [])]),
          sched := [⟨"flight_booking_saga", travelFlightIn (.str s) td⟩],
          acts := [⟨"book_flight_activity", travelFlightIn (.str s) td⟩] } := by
  have hgd : (travelFlightIn (.str s) td).get? "destination" = some (.str s) := by
    simp [travelFlightIn, JVal.get?, lookupField]
  have hgtd : ((travelFlightIn (.str s) td).get? "travel_date").getD .null = td := by
    simp [travelFlightIn, JVal.get?, lookupField]
  obtain ⟨e, hbe⟩ :=
    book_flight_atlantis env.flight.book s (travelFlightIn (.str s) td) hlow hgd
  have hbe2 : book_flight_activity env.flight.book
      (.obj [("destination", .str s),
        ("travel_date", ((travelFlightIn (.str s) td).get? "travel_date").getD
          .null)]) = .error e := by
    rw [show ((travelFlightIn (.str s) td).get? "travel_date").getD .null = td
      from hgtd]
    exact hbe
  have hsub := flight_saga_bookfail env.flight (travelFlightIn (.str s) td)
    (.str s) e hgd hbe2
  rw [hgtd] at hsub
  refine ⟨fun d r h => flight_agent_atlantis_success_false _ _ _ _ hlow h,
    e, hbe, hsub, ?_⟩
  unfold travel_booking_saga
  rw [hd]
  simp only [htd, hsub]
  simp [JVal.get?, lookupField, JVal.isStr, JVal.getD, travelFlightIn]

/-- C3: every composite run returning status success has all three sub-saga
results with status success, packages exactly those three sub-results under
bookings, and each sub-result carries a payment with status completed. -/
theorem c3_success_all_completed (env : TravelEnv) (input out : JVal)
    (ho : (travel_booking_saga env input).result = .ok out)
    (hs : out.get? "status" = some (.str "success")) :
    ∃ destination fv hv cv,
      input.get? "destination" = some destination ∧
      (flight_booking_saga env.flight (travelFlightIn destination
        ((input.get? "travel_date").getD .null))).result = .ok fv ∧
      (hotel_booking_saga env.hotel (travelHotelIn destination
        (input.getD "nights" (.num 3))
        ((input.get? "travel_date").getD .null))).result = .ok hv ∧
      (car_hire_booking_saga env.car (travelCarIn destination
        (input.getD "nights" (.num 3)))).result = .ok cv ∧
      out = .obj [("status", .str "success"), ("destination", destination),
        ("bookings", .obj [("flight", fv), ("hotel", hv), ("car", cv)])] ∧
      out.get? "bookings" = some (.obj [("flight", fv), ("hotel", hv),
        ("car", cv)]) ∧
      fv.get? "status" = some (.str "success") ∧
      hv.get? "status" = some (.str "success") ∧
      cv.get? "status" = some (.str "success") ∧
      (∃ p, fv.get? "payment" = some p ∧
        p.get? "status" = some (.str "completed")) ∧
      (∃ p, hv.get? "payment" = some p ∧
        p.get? "status" = some (.str "completed")) ∧
      (∃ p, cv.get? "payment" = some p ∧
        p.get? "status" = some (.str "completed")) := by
  rcases travel_cases env input with ⟨hdg, hrun⟩ |
    ⟨destination, fRun, hRun, cRun, fc, hcall, ccall, hdg, hfr, hhr, hcr, hfc, hhc,
      hcc, B⟩
  · rw [hrun] at ho
    exact absurd ho (by simp)
  · rcases B with ⟨e, _, hrun⟩ | ⟨fv, _, _, hrun⟩ | ⟨fv, fst, _, _, _, hrun⟩ |
      ⟨fv, hfv, hfvs, B⟩
    · rw [hrun] at ho
      exact absurd ho (by simp)
    · rw [hrun] at ho
      exact absurd ho (by simp)
    · rw [hrun] at ho
      injection ho with ho
      subst ho
      simp [JVal.get?, lookupField] at hs
    · rcases B with ⟨e, _, hrun⟩ | ⟨hv, _, _, hrun⟩ |
        ⟨hv, hst, _, _, _, ⟨_, hrun⟩ | ⟨ci, _, hrun⟩⟩ | ⟨hv, hhv, hhvs, B⟩
      · rw [hrun] at ho
        exact absurd ho (by simp)
      · rw [hrun] at ho
        exact absurd ho (by simp)
      · rw [hrun] at ho
        exact absurd ho (by simp)
      · rw [hrun] at ho
        injection ho with ho
        subst ho
        simp [JVal.get?, lookupField] at hs
      · rcases B with ⟨e, _, hrun⟩ | ⟨cv, _, _, hrun⟩ |
          ⟨cv, cst, _, _, _, ⟨_, hrun⟩ | ⟨ciH, _, _, hrun⟩ |
            ⟨ciH, ciF, _, _, hrun⟩⟩ | ⟨cv, hcv, hcvs, hrun⟩
        · rw [hrun] at ho
          exact absurd ho (by simp)
        · rw [hrun] at ho
          exact absurd ho (by simp)
        · rw [hrun] at ho
          exact absurd ho (by simp)
        · rw [hrun] at ho
          exact absurd ho (by simp)
        · rw [hrun] at ho
          injection ho with ho
          subst ho
          simp [JVal.get?, lookupField] at hs
        · rw [hrun] at ho
          injection ho with ho
          subst ho
          rw [← hfr] at hfv
          rw [← hhr] at hhv
          rw [← hcr] at hcv
          obtain ⟨_, _, fpay, _, _, hfpay, _, _, hfgp, _⟩ :=
            flight_saga_success env.flight _ fv hfv hfvs
          obtain ⟨_, _, hpay, _, _, hhpay, _, _, hhgp, _⟩ :=
            hotel_saga_success env.hotel _ hv hhv hhvs
          obtain ⟨_, _, cpay, _, _, hcpay, _, _, hcgp, _⟩ :=
            car_saga_success env.car _ cv hcv hcvs
          exact ⟨destination, fv, hv, cv, hdg, hfv, hhv, hcv, rfl,
            by simp [JVal.get?, lookupField], hfvs, hhvs, hcvs,
            ⟨fpay, hfgp, (process_flight_payment_ok _ _ _ hfpay).1⟩,
            ⟨hpay, hhgp, (process_hotel_payment_ok _ _ _ hhpay).1⟩,
            ⟨cpay, hcgp, (process_car_payment_ok _ _ _ hcpay).1⟩⟩

/-- names of the sub-orchestrations scheduled by an orchestrator, in
scheduling order. -/
def subCallNames (l : List ActCall) : List String :=
  l.filterMap (fun c =>
    if c.name == "flight_booking_saga" || c.name == "hotel_booking_saga"
        || c.name == "car_hire_booking_saga"
      then some c.name else none)

/-- C6: the composite saga schedules its sub-orchestrations in the fixed
order flight, hotel, car; the hotel sub-orchestration is scheduled exactly
when the flight one returned status success, and the car one exactly when
both earlier ones did, so no later step is ever scheduled once an earlier
step has failed. -/
theorem c6_fixed_order (env : TravelEnv) (input destination : JVal)
    (hd : input.get? "destination" = some destination) :
    (subCallNames (travel_booking_saga env input).sched
       = ["flight_booking_saga"] ∨
     subCallNames (travel_booking_saga env input).sched
       = ["flight_booking_saga", "hotel_booking_saga"] ∨
     subCallNames (travel_booking_saga env input).sched
       = ["flight_booking_saga", "hotel_booking_saga",
          "car_hire_booking_saga"]) ∧
    ("hotel_booking_saga" ∈ subCallNames (travel_booking_saga env input).sched ↔
      okSuccess (flight_booking_saga env.flight (travelFlightIn destination
        ((input.get? "travel_date").getD .null))).result = true) ∧
    ("car_hire_booking_saga" ∈
        subCallNames (travel_booking_saga env input).sched ↔
      (okSuccess (flight_booking_saga env.flight (travelFlightIn destination
        ((input.get? "travel_date").getD .null))).result = true ∧
       okSuccess (hotel_booking_saga env.hotel (travelHotelIn destination
        (input.getD "nights" (.num 3))
        ((input.get? "travel_date").getD .null))).result = true)) := by
  rcases travel_cases env input with ⟨hdg, hrun⟩ |
    ⟨d2, fRun, hRun, cRun, fc, hcall, ccall, hdg, hfr, hhr, hcr, hfc, hhc, hcc, B⟩
  · rw [hd] at hdg
    exact absurd hdg (by simp)
  · rw [hd] at hdg
    injection hdg with hdg
    subst hdg
    subst hfc
    subst hhc
    subst hcc
    rw [hfr, hhr]
    rcases B with ⟨e, h1, hrun⟩ | ⟨fv, h1, h2, hrun⟩ | ⟨fv, fst, h1, h2, h3, hrun⟩ |
      ⟨fv, h1, h2, B⟩
    · rw [hrun]
      simp [subCallNames, okSuccess, h1]
    · rw [hrun]
      simp [subCallNames, okSuccess, h1, JVal.getD, h2, JVal.truthy, JVal.isStr]
    · rw [hrun]
      simp [subCallNames, okSuccess, h1, JVal.getD, h2, h3]
    · rcases B with ⟨e, g1, hrun⟩ | ⟨hv, g1, g2, hrun⟩ |
        ⟨hv, hst, g1, g2, g3, ⟨g4, hrun⟩ | ⟨ci, g4, hrun⟩⟩ | ⟨hv, g1, g2, B⟩
      · rw [hrun]
        simp [subCallNames, okSuccess, h1, JVal.getD, h2, isStr_self, g1]
      · rw [hrun]
        simp [subCallNames, okSuccess, h1, JVal.getD, h2, isStr_self, g1, g2,
          JVal.truthy, JVal.isStr]
      · rw [hrun]
        simp [subCallNames, okSuccess, h1, JVal.getD, h2, isStr_self, g1, g2, g3]
      · rw [hrun]
        simp [subCallNames, okSuccess, h1, JVal.getD, h2, isStr_self, g1, g2, g3]
      · rcases B with ⟨e, k1, hrun⟩ | ⟨cv, k1, k2, hrun⟩ |
          ⟨cv, cst, k1, k2, k3, ⟨k4, hrun⟩ | ⟨ciH, k4, k5, hrun⟩ |
            ⟨ciH, ciF, k4, k5, hrun⟩⟩ | ⟨cv, k1, k2, hrun⟩
        · rw [hrun]
          simp [subCallNames, okSuccess, h1, JVal.getD, h2, isStr_self, g1, g2]
        · rw [hrun]
          simp [subCallNames, okSuccess, h1, JVal.getD, h2, isStr_self, g1, g2]
        · rw [hrun]
          simp [subCallNames, okSuccess, h1, JVal.getD, h2, isStr_self, g1, g2]
        · rw [hrun]
          simp [subCallNames, okSuccess, h1, JVal.getD, h2, isStr_self, g1, g2]
        · rw [hrun]
          simp [subCallNames, okSuccess, h1, JVal.getD, h2, isStr_self, g1, g2]
        · rw [hrun]
          simp [subCallNames, okSuccess, h1, JVal.getD, h2, isStr_self, g1, g2]

lemma actCount_cons (n : String) (c : ActCall) (l : List ActCall) :
    actCount n (c :: l) = (if (c.name == n) = true then 1 else 0) + actCount n l := by
  by_cases h : (c.name == n) = true <;>
    simp [actCount, List.filter_cons, h, Nat.add_comm]

/-- a per-service saga run that ended with status success executed no
compensation at all. -/
lemma flight_saga_success_cancel_zero (env : ServiceEnv) (input fv : JVal)
    (h : (flight_booking_saga env input).result = .ok fv)
    (hs : fv.get? "status" = some (.str "success")) :
    actCount "cancel_flight_activity" (flight_booking_saga env input).acts = 0 := by
  obtain ⟨d, booking, payment, _, _, _, _, _, _, hrun⟩ :=
    flight_saga_success env input fv h hs
  rw [hrun]
  simp [actCount, List.filter]

lemma hotel_saga_success_cancel_zero (env : ServiceEnv) (input hv : JVal)
    (h : (hotel_booking_saga env input).result = .ok hv)
    (hs : hv.get? "status" = some (.str "success")) :
    actCount "cancel_hotel_activity" (hotel_booking_saga env input).acts = 0 := by
  obtain ⟨d, booking, payment, _, _, _, _, _, _, hrun⟩ :=
    hotel_saga_success env input hv h hs
  rw [hrun]
  simp [actCount, List.filter]

/-- a per-service saga result with status success always yields a
compensation input: the booking carries its confirmation and the payment
its payment_ref. -/
lemma flight_saga_success_compInput (env : ServiceEnv) (input fv : JVal)
    (h : (flight_booking_saga env input).result = .ok fv)
    (hs : fv.get? "status" = some (.str "success")) :
    ∃ ci, compInputOf fv = some ci := by
  obtain ⟨d, booking, payment, _, hb, hp, _, hgb, hgp, _⟩ :=
    flight_saga_success env input fv h hs
  refine ⟨.obj [("confirmation", .str env.book.refId),
    ("payment_ref", .str ("PAY-FL-" ++ env.pay.refSuffix))], ?_⟩
  simp only [compInputOf, hgb, (book_flight_activity_ok _ _ _ hb).2, hgp,
    (process_flight_payment_ok _ _ _ hp).2]

lemma hotel_saga_success_compInput (env : ServiceEnv) (input hv : JVal)
    (h : (hotel_booking_saga env input).result = .ok hv)
    (hs : hv.get? "status" = some (.str "success")) :
    ∃ ci, compInputOf hv = some ci := by
  obtain ⟨d, booking, payment, _, hb, hp, _, hgb, hgp, _⟩ :=
    hotel_saga_success env input hv h hs
  refine ⟨.obj [("confirmation", .str env.book.refId),
    ("payment_ref", .str ("PAY-HT-" ++ env.pay.refSuffix))], ?_⟩
  simp only [compInputOf, hgb, (book_hotel_activity_ok _ _ _ hb).2, hgp,
    (process_hotel_payment_ok _ _ _ hp).2]

/-- across one whole composite run, each cancellation activity executes at
most once, counting both sub-orchestration and composite-level calls. -/
lemma travel_cancel_le_one (env : TravelEnv) (input : JVal) :
    actCount "cancel_flight_activity" (travel_booking_saga env input).acts ≤ 1 ∧
    actCount "cancel_hotel_activity" (travel_booking_saga env input).acts ≤ 1 ∧
    actCount "cancel_car_activity" (travel_booking_saga env input).acts ≤ 1 := by
  rcases travel_cases env input with ⟨hdg, hrun⟩ |
    ⟨d2, fRun, hRun, cRun, fc, hcall, ccall, hdg, hfr, hhr, hcr, hfc, hhc, hcc, B⟩
  · rw [hrun]
    simp [actCount]
  · subst hfr
    subst hhr
    subst hcr
    obtain ⟨fb1, fb2, fb3⟩ := flight_saga_cancel_counts env.flight
      (travelFlightIn d2 ((input.get? "travel_date").getD .null))
    obtain ⟨hb1, hb2, hb3⟩ := hotel_saga_cancel_counts env.hotel
      (travelHotelIn d2 (input.getD "nights" (.num 3))
        ((input.get? "travel_date").getD .null))
    obtain ⟨cb1, cb2, cb3⟩ := car_saga_cancel_counts env.car
      (travelCarIn d2 (input.getD "nights" (.num 3)))
    rcases B with ⟨e, h1, hrun⟩ | ⟨fv, h1, h2, hrun⟩ | ⟨fv, fst, h1, h2, h3, hrun⟩ |
      ⟨fv, h1, h2, B⟩
    · rw [hrun]
      exact ⟨fb1, by simp [fb2], by simp [fb3]⟩
    · rw [hrun]
      exact ⟨fb1, by simp [fb2], by simp [fb3]⟩
    · rw [hrun]
      exact ⟨fb1, by simp [fb2], by simp [fb3]⟩
    · have ffz := flight_saga_success_cancel_zero env.flight _ fv h1 h2
      rcases B with ⟨e, g1, hrun⟩ | ⟨hv, g1, g2, hrun⟩ |
        ⟨hv, hst, g1, g2, g3, ⟨g4, hrun⟩ | ⟨ci, g4, hrun⟩⟩ | ⟨hv, g1, g2, B⟩
      · rw [hrun]
        refine ⟨?_, ?_, ?_⟩ <;> simp only [actCount_append] <;> omega
      · rw [hrun]
        refine ⟨?_, ?_, ?_⟩ <;> simp only [actCount_append] <;> omega
      · rw [hrun]
        refine ⟨?_, ?_, ?_⟩ <;> simp only [actCount_append] <;> omega
      · rw [hrun]
        have t1 : actCount "cancel_flight_activity"
            [ActCall.mk "cancel_flight_activity" ci] = 1 := by
          simp [actCount, List.filter]
        have t2 : actCount "cancel_hotel_activity"
            [ActCall.mk "cancel_flight_activity" ci] = 0 := by
          simp [actCount, List.filter]
        have t3 : actCount "cancel_car_activity"
            [ActCall.mk "cancel_flight_activity" ci] = 0 := by
          simp [actCount, List.filter]
        refine ⟨?_, ?_, ?_⟩ <;> simp only [actCount_append, t1, t2, t3] <;> omega
      · have hhz := hotel_saga_success_cancel_zero env.hotel _ hv g1 g2
        rcases B with ⟨e, k1, hrun⟩ | ⟨cv, k1, k2, hrun⟩ |
          ⟨cv, cst, k1, k2, k3, ⟨k4, hrun⟩ | ⟨ciH, k4, k5, hrun⟩ |
            ⟨ciH, ciF, k4, k5, hrun⟩⟩ | ⟨cv, k1, k2, hrun⟩
        · rw [hrun]
          refine ⟨?_, ?_, ?_⟩ <;> simp only [actCount_append] <;> omega
        · rw [hrun]
          refine ⟨?_, ?_, ?_⟩ <;> simp only [actCount_append] <;> omega
        · rw [hrun]
          refine ⟨?_, ?_, ?_⟩ <;> simp only [actCount_append] <;> omega
        · rw [hrun]
          have t1 : actCount "cancel_flight_activity"
              [ActCall.mk "cancel_hotel_activity" ciH] = 0 := by
            simp [actCount, List.filter]
          have t2 : actCount "cancel_hotel_activity"
              [ActCall.mk "cancel_hotel_activity" ciH] = 1 := by
            simp [actCount, List.filter]
          have t3 : actCount "cancel_car_activity"
              [ActCall.mk "cancel_hotel_activity" ciH] = 0 := by
            simp [actCount, List.filter]
          refine ⟨?_, ?_, ?_⟩ <;> simp only [actCount_append, t1, t2, t3] <;> omega
        · rw [hrun]
          have t1 : actCount "cancel_flight_activity"
              [ActCall.mk "cancel_hotel_activity" ciH,
               ActCall.mk "cancel_flight_activity" ciF] = 1 := by
            simp [actCount, List.filter]
          have t2 : actCount "cancel_hotel_activity"
              [ActCall.mk "cancel_hotel_activity" ciH,
               ActCall.mk "cancel_flight_activity" ciF] = 1 := by
            simp [actCount, List.filter]
          have t3 : actCount "cancel_car_activity"
              [ActCall.mk "cancel_hotel_activity" ciH,
               ActCall.mk "cancel_flight_activity" ciF] = 0 := by
            simp [actCount, List.filter]
          refine ⟨?_, ?_, ?_⟩ <;> simp only [actCount_append, t1, t2, t3] <;> omega
        · rw [hrun]
          refine ⟨?_, ?_, ?_⟩ <;> simp only [actCount_append] <;> omega

/-- inside a composite run whose flight payment fails, the flight
cancellation executes exactly once. -/
lemma travel_flight_payfail_count (env : TravelEnv)
    (input destination td booking : JVal) (e : String)
    (hd : input.get? "destination" = some destination)
    (htd : (input.get? "travel_date").getD .null = td)
    (hb : book_flight_activity env.flight.book (travelFlightIn destination td)
      = .ok booking)
    (hp : process_flight_payment env.flight.pay booking = .error e) :
    actCount "cancel_flight_activity" (travel_booking_saga env input).acts = 1 := by
  have hgd : (travelFlightIn destination td).get? "destination" = some destination := by
    simp [travelFlightIn, JVal.get?, lookupField]
  have hgtd : ((travelFlightIn destination td).get? "travel_date").getD .null = td := by
    simp [travelFlightIn, JVal.get?, lookupField]
  have hb2 : book_flight_activity env.flight.book
      (.obj [("destination", destination),
        ("travel_date", ((travelFlightIn destination td).get? "travel_date").getD
          .null)]) = .ok booking := by
    rw [show ((travelFlightIn destination td).get? "travel_date").getD .null = td
      from hgtd]
    exact hb
  have hsub := flight_saga_payfail env.flight (travelFlightIn destination td)
    destination booking e hgd hb2 hp
  rw [hgtd] at hsub
  unfold travel_booking_saga
  rw [hd]
  simp only [htd, hsub]
  simp [JVal.get?, lookupField, JVal.isStr, actCount, List.filter]

/-- inside a composite run where the flight succeeded and the hotel payment
fails, the hotel cancellation executes exactly once. -/
lemma travel_hotel_payfail_count (env : TravelEnv)
    (input destination td nights fv booking : JVal) (e : String)
    (hd : input.get? "destination" = some destination)
    (htd : (input.get? "travel_date").getD .null = td)
    (hn : input.getD "nights" (.num 3) = nights)
    (hf : (flight_booking_saga env.flight (travelFlightIn destination td)).result
      = .ok fv)
    (hfs : fv.get? "status" = some (.str "success"))
    (hb : book_hotel_activity env.hotel.book
      (travelHotelIn destination nights td) = .ok booking)
    (hp : process_hotel_payment env.hotel.pay booking = .error e) :
    actCount "cancel_hotel_activity" (travel_booking_saga env input).acts = 1 := by
  have hgd : (travelHotelIn destination nights td).get? "destination"
      = some destination := by
    simp [travelHotelIn, JVal.get?, lookupField]
  have hgn : (travelHotelIn destination nights td).getD "nights" (.num 3)
      = nights := by
    simp [travelHotelIn, JVal.getD, JVal.get?, lookupField]
  have hgc : ((travelHotelIn destination nights td).get? "check_in").getD .null
      = td := by
    simp [travelHotelIn, JVal.get?, lookupField]
  have hb2 : book_hotel_activity env.hotel.book
      (.obj [("destination", destination),
        ("nights", (travelHotelIn destination nights td).getD "nights" (.num 3)),
        ("check_in", ((travelHotelIn destination nights td).get? "check_in").getD
          .null)]) = .ok booking := by
    rw [hgn, hgc]
    exact hb
  have hsub := hotel_saga_payfail env.hotel (travelHotelIn destination nights td)
    destination booking e hgd hb2 hp
  rw [hgn, hgc] at hsub
  obtain ⟨ci, hci⟩ := flight_saga_success_compInput env.flight _ fv hf hfs
  have fb2 := (flight_saga_cancel_counts env.flight
    (travelFlightIn destination td)).2.1
  have hstat : (JVal.obj [("status", JVal.str "failed"),
      ("service", JVal.str "hotel"),
      ("error", JVal.str ("Payment failed: " ++ e)),
      ("compensated", JVal.bool true)]).get? "status"
      = some (JVal.str "failed") := by
    simp [JVal.get?, lookupField]
  have hiss : (JVal.str "failed").isStr "success" = false := by
    simp [JVal.isStr]
  unfold travel_booking_saga
  rw [hd]
  simp only [htd, hn, hf, hfs, isStr_self, if_true, hsub, hstat, hiss,
    Bool.false_eq_true, if_false, List.reverse_singleton, runCompensations, hci,
    List.singleton_append, List.cons_append, List.nil_append, List.append_assoc]
  simp only [actCount_append, actCount_cons, actCount_nil, fb2]
  simp

/-- inside a composite run where flight and hotel succeeded and the car
payment fails, the car cancellation executes exactly once. -/
lemma travel_car_payfail_count (env : TravelEnv)
    (input destination td nights fv hv booking : JVal) (e : String)
    (hd : input.get? "destination" = some destination)
    (htd : (input.get? "travel_date").getD .null = td)
    (hn : input.getD "nights" (.num 3) = nights)
    (hf : (flight_booking_saga env.flight (travelFlightIn destination td)).result
      = .ok fv)
    (hfs : fv.get? "status" = some (.str "success"))
    (hh : (hotel_booking_saga env.hotel
      (travelHotelIn destination nights td)).result = .ok hv)
    (hhs : hv.get? "status" = some (.str "success"))
    (hb : book_car_activity env.car.book (travelCarIn destination nights)
      = .ok booking)
    (hp : process_car_payment env.car.pay booking = .error e) :
    actCount "cancel_car_activity" (travel_booking_saga env input).acts = 1 := by
  have hgd : (travelCarIn destination nights).get? "destination"
      = some destination := by
    simp [travelCarIn, JVal.get?, lookupField]
  have hgn : (travelCarIn destination nights).getD "days" (.num 3) = nights := by
    simp [travelCarIn, JVal.getD, JVal.get?, lookupField]
  have hb2 : book_car_activity env.car.book
      (.obj [("destination", destination),
        ("days", (travelCarIn destination nights).getD "days" (.num 3))])
      = .ok booking := by
    rw [hgn]
    exact hb
  have hsub := car_saga_payfail env.car (travelCarIn destination nights)
    destination booking e hgd hb2 hp
  rw [hgn] at hsub
  obtain ⟨ciF, hciF⟩ := flight_saga_success_compInput env.flight _ fv hf hfs
  obtain ⟨ciH, hciH⟩ := hotel_saga_success_compInput env.hotel _ hv hh hhs
  have fb3 := (flight_saga_cancel_counts env.flight
    (travelFlightIn destination td)).2.2
  have hb3 := (hotel_saga_cancel_counts env.hotel
    (travelHotelIn destination nights td)).2.2
  have hstat : (JVal.obj [("status", JVal.str "failed"),
      ("service", JVal.str "car"),
      ("error", JVal.str ("Payment failed: " ++ e)),
      ("compensated", JVal.bool true)]).get? "status"
      = some (JVal.str "failed") := by
    simp [JVal.get?, lookupField]
  have hiss : (JVal.str "failed").isStr "success" = false := by
    simp [JVal.isStr]
  unfold travel_booking_saga
  rw [hd]
  simp only [htd, hn, hf, hfs, hh, hhs, isStr_self, if_true, hsub, hstat, hiss,
    Bool.false_eq_true, if_false, List.reverse_cons, List.reverse_singleton,
    List.reverse_nil, runCompensations, hciF, hciH, List.singleton_append,
    List.cons_append, List.nil_append, List.append_assoc, List.append_nil]
  simp only [actCount_append, actCount_cons, actCount_nil, fb3, hb3]
  simp

/-- C2: across every complete run, per-service saga alone or full composite
run including its sub-orchestrations, each completed step is compensated at
most once; and whenever the booking of a step succeeded but its payment
failed, the cancellation activity of that step executes exactly once. -/
theorem c2_compensation_at_most_once :
    (∀ (env : ServiceEnv) (input : JVal),
      actCount "cancel_flight_activity" (flight_booking_saga env input).acts ≤ 1) ∧
    (∀ (env : ServiceEnv) (input : JVal),
      actCount "cancel_hotel_activity" (hotel_booking_saga env input).acts ≤ 1) ∧
    (∀ (env : ServiceEnv) (input : JVal),
      actCount "cancel_car_activity" (car_hire_booking_saga env input).acts ≤ 1) ∧
    (∀ (env : TravelEnv) (input : JVal),
      actCount "cancel_flight_activity" (travel_booking_saga env input).acts ≤ 1 ∧
      actCount "cancel_hotel_activity" (travel_booking_saga env input).acts ≤ 1 ∧
      actCount "cancel_car_activity" (travel_booking_saga env input).acts ≤ 1) ∧
    (∀ (env : ServiceEnv) (input destination booking : JVal) (e : String),
      input.get? "destination" = some destination →
      book_flight_activity env.book (.obj [("destination", destination),
        ("travel_date", (input.get? "travel_date").getD .null)]) = .ok booking →
      process_flight_payment env.pay booking = .error e →
      actCount "cancel_flight_activity" (flight_booking_saga env input).acts
        = 1) ∧
    (∀ (env : ServiceEnv) (input destination booking : JVal) (e : String),
      input.get? "destination" = some destination →
      book_hotel_activity env.book (.obj [("destination", destination),
        ("nights", input.getD "nights" (.num 3)),
        ("check_in", (input.get? "check_in").getD .null)]) = .ok booking →
      process_hotel_payment env.pay booking = .error e →
      actCount "cancel_hotel_activity" (hotel_booking_saga env input).acts = 1) ∧
    (∀ (env : ServiceEnv) (input destination booking : JVal) (e : String),
      input.get? "destination" = some destination →
      book_car_activity env.book (.obj [("destination", destination),
        ("days", input.getD "days" (.num 3))]) = .ok booking →
      process_car_payment env.pay booking = .error e →
      actCount "cancel_car_activity" (car_hire_booking_saga env input).acts = 1) ∧
    (∀ (env : TravelEnv) (input destination td booking : JVal) (e : String),
      input.get? "destination" = some destination →
      (input.get? "travel_date").getD .null = td →
      book_flight_activity env.flight.book (travelFlightIn destination td)
        = .ok booking →
      process_flight_payment env.flight.pay booking = .error e →
      actCount "cancel_flight_activity" (travel_booking_saga env input).acts
        = 1) ∧
    (∀ (env : TravelEnv) (input destination td nights fv booking : JVal)
        (e : String),
      input.get? "destination" = some destination →
      (input.get? "travel_date").getD .null = td →
      input.getD "nights" (.num 3) = nights →
      (flight_booking_saga env.flight (travelFlightIn destination td)).result
        = .ok fv →
      fv.get? "status" = some (.str "success") →
      book_hotel_activity env.hotel.book (travelHotelIn destination nights td)
        = .ok booking →
      process_hotel_payment env.hotel.pay booking = .error e →
      actCount "cancel_hotel_activity" (travel_booking_saga env input).acts
        = 1) ∧
    (∀ (env : TravelEnv) (input destination td nights fv hv booking : JVal)
        (e : String),
      input.get? "destination" = some destination →
      (input.get? "travel_date").getD .null = td →
      input.getD "nights" (.num 3) = nights →
      (flight_booking_saga env.flight (travelFlightIn destination td)).result
        = .ok fv →
      fv.get? "status" = some (.str "success") →
      (hotel_booking_saga env.hotel
        (travelHotelIn destination nights td)).result = .ok hv →
      hv.get? "status" = some (.str "success") →
      book_car_activity env.car.book (travelCarIn destination nights)
        = .ok booking →
      process_car_payment env.car.pay booking = .error e →
      actCount "cancel_car_activity" (travel_booking_saga env input).acts = 1) := by
  refine ⟨fun env input => (flight_saga_cancel_counts env input).1,
    fun env input => (hotel_saga_cancel_counts env input).1,
    fun env input => (car_saga_cancel_counts env input).1,
    fun env input => travel_cancel_le_one env input,
    ?_, ?_, ?_, ?_, ?_, ?_⟩
  · intro env input destination booking e hd hb hp
    rw [flight_saga_payfail env input destination booking e hd hb hp]
    simp [actCount, List.filter]
  · intro env input destination booking e hd hb hp
    rw [hotel_saga_payfail env input destination booking e hd hb hp]
    simp [actCount, List.filter]
  · intro env input destination booking e hd hb hp
    rw [car_saga_payfail env input destination booking e hd hb hp]
    simp [actCount, List.filter]
  · intro env input destination td booking e hd htd hb hp
    exact travel_flight_payfail_count env input destination td booking e hd htd
      hb hp
  · intro env input destination td nights fv booking e hd htd hn hf hfs hb hp
    exact travel_hotel_payfail_count env input destination td nights fv booking e
      hd htd hn hf hfs hb hp
  · intro env input destination td nights fv hv booking e hd htd hn hf hfs hh hhs
      hb hp
    exact travel_car_payfail_count env input destination td nights fv hv booking e
      hd htd hn hf hfs hh hhs hb hp

/-! Concrete fixtures used by the witness theorems below: one oracle per
outcome of interest and the values the runs compute on them. -/

/-- agent oracle for a successful booking (parse fallback path). -/
def wAgentOk : AgentEnv := ⟨false, "R1", "x", none⟩

/-- agent oracle for a failed booking. -/
def wAgentFail : AgentEnv := ⟨true, "R2", "boom", none⟩

/-- payment oracle for a successful payment. -/
def wPayOk : PayEnv := ⟨false, "S1", 100⟩

/-- payment oracle for a declined payment. -/
def wPayFail : PayEnv := ⟨true, "S2", 100⟩

def wSvcOk : ServiceEnv := ⟨wAgentOk, wPayOk⟩

def wSvcPayFail : ServiceEnv := ⟨wAgentOk, wPayFail⟩

def wSvcBookFail : ServiceEnv := ⟨wAgentFail, wPayOk⟩

def wTravelOk : TravelEnv := ⟨wSvcOk, wSvcOk, wSvcOk⟩

def wTravelFlightFail : TravelEnv := ⟨wSvcBookFail, wSvcOk, wSvcOk⟩

def wTravelHotelBookFail : TravelEnv := ⟨wSvcOk, wSvcBookFail, wSvcOk⟩

def wTravelFlightPayFail : TravelEnv := ⟨wSvcPayFail, wSvcOk, wSvcOk⟩

def wTravelHotelPayFail : TravelEnv := ⟨wSvcOk, wSvcPayFail, wSvcOk⟩

def wTravelCarPayFail : TravelEnv := ⟨wSvcOk, wSvcOk, wSvcPayFail⟩

def wInput : JVal := .obj [("destination", .str "Paris"), ("nights", .num 5),
  ("travel_date", .str "2026-03-01")]

def wInputAtlantis : JVal := .obj [("destination", .str "Atlantis")]

/-- the booking the fallback agent reply produces on the fixtures. -/
def wBooking : JVal := .obj [("success", .bool true), ("confirmation", .str "R1"),
  ("destination", .str "Paris"), ("raw", .str "x")]

def wPayFL : JVal := .obj [("payment_ref", .str "PAY-FL-S1"), ("amount", .num 100),
  ("currency", .str "USD"), ("status", .str "completed"),
  ("booking_ref", .str "R1")]

def wPayHT : JVal := .obj [("payment_ref", .str "PAY-HT-S1"), ("amount", .num 100),
  ("currency", .str "USD"), ("status", .str "completed"),
  ("booking_ref", .str "R1")]

def wFv : JVal := .obj [("status", .str "success"), ("service", .str "flight"),
  ("booking", wBooking), ("payment", wPayFL)]

def wHv : JVal := .obj [("status", .str "success"), ("service", .str "hotel"),
  ("booking", wBooking), ("payment", wPayHT)]

def wFvFail : JVal := .obj [("status", .str "failed"), ("service", .str "flight"),
  ("error", .str "Flight booking failed: boom"), ("compensated", .bool false)]

def wHvFail : JVal := .obj [("status", .str "failed"), ("service", .str "hotel"),
  ("error", .str "Hotel booking failed: boom"), ("compensated", .bool false)]

def wCarDecline : String :=
  "Payment declined for car hire R1. Card verification failed for card ending in **4242."

def wCvFail : JVal := .obj [("status", .str "failed"), ("service", .str "car"),
  ("error", .str ("Payment failed: " ++ wCarDecline)),
  ("compensated", .bool true)]

def wCiF : JVal := .obj [("confirmation", .str "R1"),
  ("payment_ref", .str "PAY-FL-S1")]

def wCiH : JVal := .obj [("confirmation", .str "R1"),
  ("payment_ref", .str "PAY-HT-S1")]

theorem c1_witness :
    travel_booking_saga wTravelFlightFail wInput =
      { result := .ok (.obj [("status", .str "failed"), ("stage", .str "flight"),
          ("error", .str "Flight booking failed: boom"),
          ("compensations", .arr [])]),
        sched := [⟨"flight_booking_saga",
          travelFlightIn (.str "Paris") (.str "2026-03-01")⟩],
        acts := (flight_booking_saga wTravelFlightFail.flight
          (travelFlightIn (.str "Paris") (.str "2026-03-01"))).acts } ∧
    travel_booking_saga wTravelHotelBookFail wInput =
      { result := .ok (.obj [("status", .str "failed"), ("stage", .str "hotel"),
          ("error", .str "Hotel booking failed: boom"),
          ("compensations", .arr [cancel_flight_activity wCiF])]),
        sched := [⟨"flight_booking_saga",
            travelFlightIn (.str "Paris") (.str "2026-03-01")⟩,
          ⟨"hotel_booking_saga",
            travelHotelIn (.str "Paris") (.num 5) (.str "2026-03-01")⟩,
          ⟨"cancel_flight_activity", wCiF⟩],
        acts := (flight_booking_saga wTravelHotelBookFail.flight
            (travelFlightIn (.str "Paris") (.str "2026-03-01"))).acts
          ++ (hotel_booking_saga wTravelHotelBookFail.hotel
            (travelHotelIn (.str "Paris") (.num 5) (.str "2026-03-01"))).acts
          ++ [⟨"cancel_flight_activity", wCiF⟩] } ∧
    travel_booking_saga wTravelCarPayFail wInput =
      { result := .ok (.obj [("status", .str "failed"), ("stage", .str "car"),
          ("error", .str ("Payment failed: " ++ wCarDecline)),
          ("compensations", .arr [cancel_hotel_activity wCiH,
            cancel_flight_activity wCiF])]),
        sched := [⟨"flight_booking_saga",
            travelFlightIn (.str "Paris") (.str "2026-03-01")⟩,
          ⟨"hotel_booking_saga",
            travelHotelIn (.str "Paris") (.num 5) (.str "2026-03-01")⟩,
          ⟨"car_hire_booking_saga", travelCarIn (.str "Paris") (.num 5)⟩,
          ⟨"cancel_hotel_activity", wCiH⟩, ⟨"cancel_flight_activity", wCiF⟩],
        acts := (flight_booking_saga wTravelCarPayFail.flight
            (travelFlightIn (.str "Paris") (.str "2026-03-01"))).acts
          ++ (hotel_booking_saga wTravelCarPayFail.hotel
            (travelHotelIn (.str "Paris") (.num 5) (.str "2026-03-01"))).acts
          ++ (car_hire_booking_saga wTravelCarPayFail.car
            (travelCarIn (.str "Paris") (.num 5))).acts
          ++ [⟨"cancel_hotel_activity", wCiH⟩,
              ⟨"cancel_flight_activity", wCiF⟩] } :=
  ⟨c1_composite_compensation_order.1 wTravelFlightFail wInput (.str "Paris")
      (.str "2026-03-01") wFvFail (.str "failed") rfl rfl rfl rfl rfl,
   c1_composite_compensation_order.2.1 wTravelHotelBookFail wInput (.str "Paris")
      (.str "2026-03-01") (.num 5) wFv wHvFail (.str "failed") wCiF
      rfl rfl rfl rfl rfl rfl rfl rfl rfl,
   c1_composite_compensation_order.2.2 wTravelCarPayFail wInput (.str "Paris")
      (.str "2026-03-01") (.num 5) wFv wHv wCvFail (.str "failed") wCiH wCiF
      rfl rfl rfl rfl rfl rfl rfl rfl rfl rfl rfl rfl⟩

def wFlightDecline : String :=
  "Payment declined for flight R1. Card ending in **4242 was rejected by the payment processor."

def wHotelDecline : String :=
  "Payment declined for hotel R1. Insufficient funds on card ending in **4242."

theorem c2_witness :
    actCount "cancel_flight_activity"
      (flight_booking_saga wSvcPayFail wInput).acts = 1 ∧
    actCount "cancel_hotel_activity"
      (hotel_booking_saga wSvcPayFail wInput).acts = 1 ∧
    actCount "cancel_car_activity"
      (car_hire_booking_saga wSvcPayFail wInput).acts = 1 ∧
    actCount "cancel_flight_activity"
      (travel_booking_saga wTravelFlightPayFail wInput).acts = 1 ∧
    actCount "cancel_hotel_activity"
      (travel_booking_saga wTravelHotelPayFail wInput).acts = 1 ∧
    actCount "cancel_car_activity"
      (travel_booking_saga wTravelCarPayFail wInput).acts = 1 :=
  ⟨c2_compensation_at_most_once.2.2.2.2.1 wSvcPayFail wInput (.str "Paris")
      wBooking wFlightDecline rfl rfl rfl,
   c2_compensation_at_most_once.2.2.2.2.2.1 wSvcPayFail wInput (.str "Paris")
      wBooking wHotelDecline rfl rfl rfl,
   c2_compensation_at_most_once.2.2.2.2.2.2.1 wSvcPayFail wInput (.str "Paris")
      wBooking wCarDecline rfl rfl rfl,
   c2_compensation_at_most_once.2.2.2.2.2.2.2.1 wTravelFlightPayFail wInput
      (.str "Paris") (.str "2026-03-01") wBooking wFlightDecline rfl rfl rfl rfl,
   c2_compensation_at_most_once.2.2.2.2.2.2.2.2.1 wTravelHotelPayFail wInput
      (.str "Paris") (.str "2026-03-01") (.num 5) wFv wBooking wHotelDecline
      rfl rfl rfl rfl rfl rfl rfl,
   c2_compensation_at_most_once.2.2.2.2.2.2.2.2.2 wTravelCarPayFail wInput
      (.str "Paris") (.str "2026-03-01") (.num 5) wFv wHv wBooking wCarDecline
      rfl rfl rfl rfl rfl rfl rfl rfl rfl⟩

def wOutSuccess : JVal := .obj [("status", .str "success"),
  ("destination", .str "Paris"),
  ("bookings", .obj [("flight", wFv), ("hotel", wHv),
    ("car", .obj [("status", .str "success"), ("service", .str "car"),
      ("booking", wBooking),
      ("payment", .obj [("payment_ref", .str "PAY-CR-S1"), ("amount", .num 100),
        ("currency", .str "USD"), ("status", .str "completed"),
        ("booking_ref", .str "R1")])])])]

theorem c3_witness :
    ∃ destination fv hv cv,
      wInput.get? "destination" = some destination ∧
      (flight_booking_saga wTravelOk.flight (travelFlightIn destination
        ((wInput.get? "travel_date").getD .null))).result = .ok fv ∧
      (hotel_booking_saga wTravelOk.hotel (travelHotelIn destination
        (wInput.getD "nights" (.num 3))
        ((wInput.get? "travel_date").getD .null))).result = .ok hv ∧
      (car_hire_booking_saga wTravelOk.car (travelCarIn destination
        (wInput.getD "nights" (.num 3)))).result = .ok cv ∧
      wOutSuccess = .obj [("status", .str "success"),
        ("destination", destination),
        ("bookings", .obj [("flight", fv), ("hotel", hv), ("car", cv)])] ∧
      wOutSuccess.get? "bookings" = some (.obj [("flight", fv), ("hotel", hv),
        ("car", cv)]) ∧
      fv.get? "status" = some (.str "success") ∧
      hv.get? "status" = some (.str "success") ∧
      cv.get? "status" = some (.str "success") ∧
      (∃ p, fv.get? "payment" = some p ∧
        p.get? "status" = some (.str "completed")) ∧
      (∃ p, hv.get? "payment" = some p ∧
        p.get? "status" = some (.str "completed")) ∧
      (∃ p, cv.get? "payment" = some p ∧
        p.get? "status" = some (.str "completed")) :=
  c3_success_all_completed wTravelOk wInput wOutSuccess rfl rfl

theorem c4_witness :
    (flight_booking_saga wSvcPayFail wInput).result =
      .ok (.obj [("status", .str "failed"), ("service", .str "flight"),
        ("error", .str ("Payment failed: " ++ wFlightDecline)),
        ("compensated", .bool true)]) ∧
    actCount "cancel_flight_activity"
      (flight_booking_saga wSvcPayFail wInput).acts = 1 ∧
    wBooking.get? "confirmation" = some (.str "R1") ∧
    wBooking.get? "payment_ref" = none ∧
    (hotel_booking_saga wSvcPayFail wInput).result =
      .ok (.obj [("status", .str "failed"), ("service", .str "hotel"),
        ("error", .str ("Payment failed: " ++ wHotelDecline)),
        ("compensated", .bool true)]) ∧
    actCount "cancel_hotel_activity"
      (hotel_booking_saga wSvcPayFail wInput).acts = 1 ∧
    (car_hire_booking_saga wSvcPayFail wInput).result =
      .ok (.obj [("status", .str "failed"), ("service", .str "car"),
        ("error", .str ("Payment failed: " ++ wCarDecline)),
        ("compensated", .bool true)]) ∧
    actCount "cancel_car_activity"
      (car_hire_booking_saga wSvcPayFail wInput).acts = 1 := by
  have hf := c4_payment_failure_compensates.1 wSvcPayFail wInput (.str "Paris")
    wBooking wFlightDecline rfl rfl rfl
  have hh := c4_payment_failure_compensates.2.1 wSvcPayFail wInput (.str "Paris")
    wBooking wHotelDecline rfl rfl rfl
  have hc := c4_payment_failure_compensates.2.2 wSvcPayFail wInput (.str "Paris")
    wBooking wCarDecline rfl rfl rfl
  exact ⟨hf.1, hf.2.2.1, hf.2.2.2.1,
    hf.2.2.2.2 (fun fs h => Option.noConfusion h),
    hh.1, hh.2.2.1, hc.1, hc.2.2.1⟩

theorem c5_witness :
    (flight_booking_saga wSvcBookFail wInput).result =
      .ok (.obj [("status", .str "failed"), ("service", .str "flight"),
        ("error", .str "Flight booking failed: boom"),
        ("compensated", .bool false)]) ∧
    actCount "cancel_flight_activity"
      (flight_booking_saga wSvcBookFail wInput).acts = 0 ∧
    (hotel_booking_saga wSvcBookFail wInput).result =
      .ok (.obj [("status", .str "failed"), ("service", .str "hotel"),
        ("error", .str "Hotel booking failed: boom"),
        ("compensated", .bool false)]) ∧
    actCount "cancel_hotel_activity"
      (hotel_booking_saga wSvcBookFail wInput).acts = 0 ∧
    (car_hire_booking_saga wSvcBookFail wInput).result =
      .ok (.obj [("status", .str "failed"), ("service", .str "car"),
        ("error", .str "Car hire booking failed: boom"),
        ("compensated", .bool false)]) ∧
    actCount "cancel_car_activity"
      (car_hire_booking_saga wSvcBookFail wInput).acts = 0 := by
  have hf := c5_booking_failure_terminal.1 wSvcBookFail wInput (.str "Paris")
    "Flight booking failed: boom" rfl rfl
  have hh := c5_booking_failure_terminal.2.1 wSvcBookFail wInput (.str "Paris")
    "Hotel booking failed: boom" rfl rfl
  have hc := c5_booking_failure_terminal.2.2 wSvcBookFail wInput (.str "Paris")
    "Car hire booking failed: boom" rfl rfl
  exact ⟨hf.1, hf.2.2.1, hh.1, hh.2.2.2.1, hc.1, hc.2.2.2.2⟩

theorem c6_witness :
    (subCallNames (travel_booking_saga wTravelOk wInput).sched
       = ["flight_booking_saga"] ∨
     subCallNames (travel_booking_saga wTravelOk wInput).sched
       = ["flight_booking_saga", "hotel_booking_saga"] ∨
     subCallNames (travel_booking_saga wTravelOk wInput).sched
       = ["flight_booking_saga", "hotel_booking_saga",
          "car_hire_booking_saga"]) ∧
    ("hotel_booking_saga" ∈
        subCallNames (travel_booking_saga wTravelOk wInput).sched ↔
      okSuccess (flight_booking_saga wTravelOk.flight
        (travelFlightIn (.str "Paris")
          ((wInput.get? "travel_date").getD .null))).result = true) ∧
    ("car_hire_booking_saga" ∈
        subCallNames (travel_booking_saga wTravelOk wInput).sched ↔
      (okSuccess (flight_booking_saga wTravelOk.flight
        (travelFlightIn (.str "Paris")
          ((wInput.get? "travel_date").getD .null))).result = true ∧
       okSuccess (hotel_booking_saga wTravelOk.hotel
        (travelHotelIn (.str "Paris") (wInput.getD "nights" (.num 3))
          ((wInput.get? "travel_date").getD .null))).result = true)) :=
  c6_fixed_order wTravelOk wInput (.str "Paris") rfl

/-- C10: in every composite run the car-hire sub-orchestration receives
days equal to the nights value of the trip (defaulting to 3 when absent),
and the hotel sub-orchestration receives check_in equal to the travel_date
of the trip; the composite input carries no independent car-duration or
hotel check-in parameter, so whatever days or check_in keys the composite
input may hold are ignored. -/
theorem c10_derived_sub_inputs (env : TravelEnv) (input destination : JVal)
    (hd : input.get? "destination" = some destination) :
    (∀ c ∈ (travel_booking_saga env input).sched,
      c.name = "hotel_booking_saga" →
      c.input = travelHotelIn destination (input.getD "nights" (.num 3))
        ((input.get? "travel_date").getD .null)) ∧
    (∀ c ∈ (travel_booking_saga env input).sched,
      c.name = "car_hire_booking_saga" →
      c.input = travelCarIn destination (input.getD "nights" (.num 3))) ∧
    (travelCarIn destination (input.getD "nights" (.num 3))).get? "days"
      = some (input.getD "nights" (.num 3)) ∧
    (travelHotelIn destination (input.getD "nights" (.num 3))
      ((input.get? "travel_date").getD .null)).get? "check_in"
      = some ((input.get? "travel_date").getD .null) := by
  refine ⟨?_, ?_, by simp [travelCarIn, JVal.get?, lookupField],
    by simp [travelHotelIn, JVal.get?, lookupField]⟩ <;>
  · rcases travel_cases env input with ⟨hdg, hrun⟩ |
      ⟨d2, fRun, hRun, cRun, fc, hcall, ccall, hdg, hfr, hhr, hcr, hfc, hhc, hcc,
        B⟩
    · rw [hd] at hdg
      exact absurd hdg (by simp)
    · rw [hd] at hdg
      injection hdg with hdg
      subst hdg
      subst hfc
      subst hhc
      subst hcc
      rcases B with ⟨e, h1, hrun⟩ | ⟨fv, h1, h2, hrun⟩ |
        ⟨fv, fst, h1, h2, h3, hrun⟩ | ⟨fv, h1, h2, B⟩
      · rw [hrun]
        simp
      · rw [hrun]
        simp
      · rw [hrun]
        simp
      · rcases B with ⟨e, g1, hrun⟩ | ⟨hv, g1, g2, hrun⟩ |
          ⟨hv, hst, g1, g2, g3, ⟨g4, hrun⟩ | ⟨ci, g4, hrun⟩⟩ | ⟨hv, g1, g2, B⟩
        · rw [hrun]
          simp
        · rw [hrun]
          simp
        · rw [hrun]
          simp
        · rw [hrun]
          simp
        · rcases B with ⟨e, k1, hrun⟩ | ⟨cv, k1, k2, hrun⟩ |
            ⟨cv, cst, k1, k2, k3, ⟨k4, hrun⟩ | ⟨ciH, k4, k5, hrun⟩ |
              ⟨ciH, ciF, k4, k5, hrun⟩⟩ | ⟨cv, k1, k2, hrun⟩ <;>
          · rw [hrun]
            simp

theorem c7_witness :
    travel_booking_saga wTravelOk wInputAtlantis =
      { result := .ok (.obj [("status", .str "failed"),
          ("stage", .str "flight"),
          ("error", .str "Flight booking failed: x"),
          ("compensations", .arr [])]),
        sched := [⟨"flight_booking_saga",
          travelFlightIn (.str "Atlantis") .null⟩],
        acts := [⟨"book_flight_activity",
          travelFlightIn (.str "Atlantis") .null⟩] } := by
  obtain ⟨-, e, h1, -, h3⟩ := c7_atlantis_fails_flight_stage wTravelOk
    wInputAtlantis .null "Atlantis" rfl rfl rfl
  have he : book_flight_activity wTravelOk.flight.book
      (travelFlightIn (.str "Atlantis") .null)
      = .error "Flight booking failed: x" := rfl
  rw [he] at h1
  injection h1 with h1
  rw [← h1] at h3
  exact h3

theorem c9_witness :
    cancel_flight_activity (.obj [("confirmation", .str "R1")]) =
      .obj [("cancelled", .bool true), ("booking_ref", .str "R1"),
        ("refunded_payment", .null), ("service", .str "flight")] ∧
    (cancel_hotel_activity wCiH).get? "cancelled" = some (.bool true) :=
  ⟨c9_cancellations_total.1 [("confirmation", .str "R1")],
   c9_cancellations_total.2.2.2 wTravelCarPayFail wInput
     (.obj [("status", .str "failed"), ("stage", .str "car"),
       ("error", .str ("Payment failed: " ++ wCarDecline)),
       ("compensations", .arr [cancel_hotel_activity wCiH,
         cancel_flight_activity wCiF])])
     [cancel_hotel_activity wCiH, cancel_flight_activity wCiF]
     rfl rfl (cancel_hotel_activity wCiH) (List.mem_cons_self _ _)⟩

theorem c10_witness :
    (ActCall.mk "hotel_booking_saga"
      (travelHotelIn (.str "Paris") (.num 5) (.str "2026-03-01"))).input
      = travelHotelIn (.str "Paris") (.num 5) (.str "2026-03-01") ∧
    (ActCall.mk "car_hire_booking_saga"
      (travelCarIn (.str "Paris") (.num 5))).input
      = travelCarIn (.str "Paris") (.num 5) ∧
    (travelCarIn (.str "Paris") (.num 5)).get? "days" = some (.num 5) ∧
    (travelHotelIn (.str "Paris") (.num 5) (.str "2026-03-01")).get? "check_in"
      = some (.str "2026-03-01") := by
  obtain ⟨h1, h2, h3, h4⟩ := c10_derived_sub_inputs wTravelOk wInput
    (.str "Paris") rfl
  have hsched : (travel_booking_saga wTravelOk wInput).sched =
      [⟨"flight_booking_saga", travelFlightIn (.str "Paris") (.str "2026-03-01")⟩,
       ⟨"hotel_booking_saga",
         travelHotelIn (.str "Paris") (.num 5) (.str "2026-03-01")⟩,
       ⟨"car_hire_booking_saga", travelCarIn (.str "Paris") (.num 5)⟩] := rfl
  have hm1 : ActCall.mk "hotel_booking_saga"
      (travelHotelIn (.str "Paris") (.num 5) (.str "2026-03-01"))
      ∈ (travel_booking_saga wTravelOk wInput).sched := by
    rw [hsched]
    exact List.mem_cons_of_mem _ (List.mem_cons_self _ _)
  have hm2 : ActCall.mk "car_hire_booking_saga"
      (travelCarIn (.str "Paris") (.num 5))
      ∈ (travel_booking_saga wTravelOk wInput).sched := by
    rw [hsched]
    exact List.mem_cons_of_mem _ (List.mem_cons_of_mem _ (List.mem_cons_self _ _))
  exact ⟨h1 _ hm1 rfl, h2 _ hm2 rfl, h3, h4⟩
